import Mathlib

/-!
# A shallow embedding of the `DBManager` catalog store (`library_db.py`)

The store is a SQLite database with four tables (`books`, `authors`,
`genres`, `book_genres`).  We model the database state as four lists of
typed rows together with a `schema` flag recording whether
`create_tables` has run (the four tables are always created together and
never dropped, so one flag suffices).  Auto-assigned integer primary
keys follow SQLite's rowid rule: one more than the current maximum.

Error model: `execute_sql` and the read helpers catch every
`sqlite3.Error` and swallow it (printing only), so operations built on
them are total functions `DB → DB` (or return a neutral value).  The two
places where a Python exception can escape the component are modelled
with `Except`:
  * `update` catches only `sqlite3.OperationalError`; an
    `IntegrityError` (NULL into a NOT NULL column, duplicate primary
    key) propagates — modelled as `Except.error UErr.integrity`;
  * `link_books_to_genres` calls `random.randint(1, min(len(genre_ids), 3))`,
    which raises `ValueError` when `genre_ids` is empty — modelled as
    `Except.error LinkErr.valueError`.
SQLite's type-affinity coercions for kind-mismatched stored values
(e.g. storing non-numeric TEXT in an INTEGER column) are outside the
model; such assignments are marked `UErr.unmodeled` and excluded from
the theorems.  Connection-establishment failure (taxonomy (a) of the
spec) is likewise not modelled.
-/

namespace LibraryDB

/-- A row of the `books` table: `book_id INTEGER PRIMARY KEY`,
`title TEXT NOT NULL`, `author_id INTEGER NOT NULL`,
`publication_year TEXT` (nullable). -/
structure Book where
  book_id : Nat
  title : String
  author_id : Nat
  publication_year : Option String
deriving DecidableEq

/-- A row of the `authors` table: `author_id INTEGER PRIMARY KEY`,
`first_name TEXT NOT NULL`, `last_name TEXT NOT NULL`,
`biography TEXT` (nullable). -/
structure Author where
  author_id : Nat
  first_name : String
  last_name : String
  biography : Option String
deriving DecidableEq

/-- A row of the `genres` table: `genre_id INTEGER PRIMARY KEY`,
`genre_name TEXT NOT NULL`. -/
structure Genre where
  genre_id : Nat
  genre_name : String
deriving DecidableEq

/-- The database state: the four tables in rowid (insertion) order, plus
whether `create_tables` has been executed.  `book_genres` rows are
`(book_id, genre_id)` pairs, the composite primary key. -/
structure DB where
  schema : Bool
  books : List Book
  authors : List Author
  genres : List Genre
  book_genres : List (Nat × Nat)
deriving DecidableEq

/-- A database file that has just been created: no tables yet. -/
def freshDB : DB := ⟨false, [], [], [], []⟩

/-- Well-formedness maintained by SQLite's primary keys: the three id
columns are duplicate-free and so is the composite key of
`book_genres`. -/
def WF (st : DB) : Prop :=
  (st.books.map Book.book_id).Nodup ∧ (st.authors.map Author.author_id).Nodup ∧
    (st.genres.map Genre.genre_id).Nodup ∧ st.book_genres.Nodup

instance (st : DB) : Decidable (WF st) := by unfold WF; infer_instance

/-- SQLite's rowid assignment for an omitted `INTEGER PRIMARY KEY`:
one more than the largest id in use. -/
def nextId (ids : List Nat) : Nat := ids.foldr max 0 + 1

/-- Embeds `create_tables`: four `CREATE TABLE IF NOT EXISTS` statements via
`execute_sql`.  Existing tables (hence existing rows) are untouched. -/
def create_tables (st : DB) : DB := { st with schema := true }

/-- Embeds `add_book`: `INSERT INTO books(title, author_id, publication_year)`.
The declared foreign key on `author_id` is not enforced (SQLite's
`foreign_keys` pragma is off by default), so the insert succeeds for any
`author_id`.  On a missing table the failure is swallowed by
`execute_sql`. -/
def add_book (title : String) (author_id : Nat) (publication_year : String)
    (st : DB) : DB :=
  if st.schema then
    { st with books := st.books ++
        [⟨nextId (st.books.map Book.book_id), title, author_id, some publication_year⟩] }
  else st

/-- Embeds `add_author`: `INSERT INTO authors(first_name, last_name, biography)`. -/
def add_author (first_name last_name biography : String) (st : DB) : DB :=
  if st.schema then
    { st with authors := st.authors ++
        [⟨nextId (st.authors.map Author.author_id), first_name, last_name, some biography⟩] }
  else st

/-- Embeds `genre_exists`: `SELECT genre_id FROM genres WHERE genre_name = ?`,
true iff a row was returned; any `sqlite3.Error` (e.g. missing table)
yields `False`. -/
def genre_exists (genre_name : String) (st : DB) : Bool :=
  st.schema && st.genres.any (fun g => g.genre_name == genre_name)

/-- Embeds `add_genre`: inserts `genre_name` only when `genre_exists` is false;
otherwise prints a message and performs no write. -/
def add_genre (genre_name : String) (st : DB) : DB :=
  if genre_exists genre_name st then st
  else if st.schema then
    { st with genres := st.genres ++
        [⟨nextId (st.genres.map Genre.genre_id), genre_name⟩] }
  else st

/-- One `INSERT INTO book_genres (book_id, genre_id) VALUES (?, ?)`
through `execute_sql`: a duplicate composite key violates the primary
key, and that `IntegrityError` is caught and swallowed by
`execute_sql`, leaving the state unchanged. -/
def insert_book_genre (book_id genre_id : Nat) (st : DB) : DB :=
  if st.schema then
    if (book_id, genre_id) ∈ st.book_genres then st
    else { st with book_genres := st.book_genres ++ [(book_id, genre_id)] }
  else st

/-- Embeds `is_database_empty`: four `SELECT COUNT(*)` queries, true iff all
four counts are zero; any `sqlite3.Error` (missing tables) yields
`False`. -/
def is_database_empty (st : DB) : Bool :=
  st.schema && (st.books.isEmpty && st.authors.isEmpty &&
    st.genres.isEmpty && st.book_genres.isEmpty)

/-- Python's `if id:` truthiness test in `delete`: both `None` and an
explicit `0` are falsy and select the delete-all query. -/
def idTruthy : Option Nat → Bool
  | some n => n != 0
  | none => false

/-- Embeds `delete`: for a recognized table name, runs the per-id query when
`if id:` is truthy (Python treats both `None` and `0` as falsy) and the
delete-all query otherwise.  The per-id query for `book_genres` is
`DELETE FROM book_genres WHERE book_id = ?`.  Unrecognized table names
are silently skipped; a missing table's error is caught. -/
def delete (table : String) (id : Option Nat) (st : DB) : DB :=
  if st.schema then
    let n := id.getD 0
    match table with
    | "books" =>
        { st with books :=
            if idTruthy id then st.books.filter (fun b => b.book_id ≠ n) else [] }
    | "authors" =>
        { st with authors :=
            if idTruthy id then st.authors.filter (fun a => a.author_id ≠ n) else [] }
    | "genres" =>
        { st with genres :=
            if idTruthy id then st.genres.filter (fun g => g.genre_id ≠ n) else [] }
    | "book_genres" =>
        { st with book_genres :=
            if idTruthy id then st.book_genres.filter (fun p => p.1 ≠ n) else [] }
    | _ => st
  else st

/-- A SQLite value bound from a Python argument: an integer, a text
string, or `None`/NULL. -/
inductive Value where
  | i (n : Nat)
  | s (t : String)
  | null
deriving DecidableEq

/-- Errors that escape `update` (it catches only
`sqlite3.OperationalError`): an `IntegrityError`, or an assignment that
relies on SQLite's type-affinity coercion, which is outside the model. -/
inductive UErr where
  | integrity
  | unmodeled
deriving DecidableEq

/-- Columns of the `books` table. -/
def isBookCol (c : String) : Bool :=
  c == "book_id" || c == "title" || c == "author_id" || c == "publication_year"

/-- Columns of the `authors` table. -/
def isAuthorCol (c : String) : Bool :=
  c == "author_id" || c == "first_name" || c == "last_name" || c == "biography"

/-- Columns of the `genres` table. -/
def isGenreCol (c : String) : Bool := c == "genre_id" || c == "genre_name"

/-- Columns of the `book_genres` table. -/
def isBGCol (c : String) : Bool := c == "book_id" || c == "genre_id"

/-- Effect of one `SET column = ?` item on a `books` row.  NULL into a
NOT NULL column is an `IntegrityError`; an integer stored in a TEXT
column is converted to its text form (TEXT affinity).  The caller has
already checked the column names, so the final catch-all is
unreachable. -/
def applyBookField (b : Book) : String × Value → Except UErr Book
  | ("title", .s t) => .ok { b with title := t }
  | ("title", .i n) => .ok { b with title := toString n }
  | ("title", .null) => .error .integrity
  | ("author_id", .i n) => .ok { b with author_id := n }
  | ("author_id", .null) => .error .integrity
  | ("author_id", .s _) => .error .unmodeled
  | ("publication_year", .s t) => .ok { b with publication_year := some t }
  | ("publication_year", .i n) => .ok { b with publication_year := some (toString n) }
  | ("publication_year", .null) => .ok { b with publication_year := none }
  | ("book_id", .i n) => .ok { b with book_id := n }
  | ("book_id", _) => .error .unmodeled
  | (_, _) => .error .unmodeled

/-- Effect of one `SET column = ?` item on an `authors` row. -/
def applyAuthorField (a : Author) : String × Value → Except UErr Author
  | ("first_name", .s t) => .ok { a with first_name := t }
  | ("first_name", .i n) => .ok { a with first_name := toString n }
  | ("first_name", .null) => .error .integrity
  | ("last_name", .s t) => .ok { a with last_name := t }
  | ("last_name", .i n) => .ok { a with last_name := toString n }
  | ("last_name", .null) => .error .integrity
  | ("biography", .s t) => .ok { a with biography := some t }
  | ("biography", .i n) => .ok { a with biography := some (toString n) }
  | ("biography", .null) => .ok { a with biography := none }
  | ("author_id", .i n) => .ok { a with author_id := n }
  | ("author_id", _) => .error .unmodeled
  | (_, _) => .error .unmodeled

/-- Effect of one `SET column = ?` item on a `genres` row. -/
def applyGenreField (g : Genre) : String × Value → Except UErr Genre
  | ("genre_name", .s t) => .ok { g with genre_name := t }
  | ("genre_name", .i n) => .ok { g with genre_name := toString n }
  | ("genre_name", .null) => .error .integrity
  | ("genre_id", .i n) => .ok { g with genre_id := n }
  | ("genre_id", _) => .error .unmodeled
  | (_, _) => .error .unmodeled

/-- One scan of a table during `UPDATE ... WHERE pk = i`: each row whose
key matches is rewritten by the SET list; the first constraint violation
aborts the statement (which is then rolled back).  Rows are visited in
scan order, as SQLite does. -/
def updateRows {ρ : Type} (pk : ρ → Nat) (ap : ρ → Except UErr ρ) (i : Nat) :
    List ρ → Except UErr (List ρ)
  | [] => Except.ok []
  | r :: rs =>
    match (if pk r = i then ap r else Except.ok r), updateRows pk ap i rs with
    | Except.ok r2, Except.ok rs2 => Except.ok (r2 :: rs2)
    | Except.error e, _ => Except.error e
    | Except.ok _, Except.error e => Except.error e

/-- Embeds `update`: builds `UPDATE {table}s SET ... WHERE {table}_id = ?`.
A missing table (unrecognized singular name, or no schema yet), an
unknown column in the SET list, and an empty SET clause are all
`sqlite3.OperationalError`s, caught and logged, leaving the state
unchanged (`Except.ok st`).  For `table = "book_genre"` the WHERE column
`book_genre_id` never exists, so such calls always no-op.  Constraint
violations while executing (`IntegrityError`: NULL into NOT NULL, a
primary-key value colliding with another row) are NOT caught and escape
as `Except.error`; the statement is rolled back, so the state is
unchanged on error. -/
def update (table : String) (_id : Nat) (kvs : List (String × Value)) (st : DB) :
    Except UErr DB :=
  if st.schema = false then .ok st
  else if kvs.isEmpty then .ok st
  else match table with
  | "book" =>
      if kvs.all (fun c => isBookCol c.1) then
        match updateRows Book.book_id (fun b => kvs.foldlM applyBookField b) _id st.books with
        | .error e => .error e
        | .ok bs =>
            if (bs.map Book.book_id).Nodup then .ok { st with books := bs }
            else .error .integrity
      else .ok st
  | "author" =>
      if kvs.all (fun c => isAuthorCol c.1) then
        match updateRows Author.author_id (fun a => kvs.foldlM applyAuthorField a) _id st.authors with
        | .error e => .error e
        | .ok as_ =>
            if (as_.map Author.author_id).Nodup then .ok { st with authors := as_ }
            else .error .integrity
      else .ok st
  | "genre" =>
      if kvs.all (fun c => isGenreCol c.1) then
        match updateRows Genre.genre_id (fun g => kvs.foldlM applyGenreField g) _id st.genres with
        | .error e => .error e
        | .ok gs =>
            if (gs.map Genre.genre_id).Nodup then .ok { st with genres := gs }
            else .error .integrity
      else .ok st
  | _ => .ok st

/-- A nullable TEXT column as a stored value. -/
def optV : Option String → Value
  | some t => .s t
  | none => .null

/-- The `SELECT *` row of a `books` entry, in declared column order. -/
def rowOfBook (b : Book) : List Value :=
  [.i b.book_id, .s b.title, .i b.author_id, optV b.publication_year]

/-- The `SELECT *` row of an `authors` entry. -/
def rowOfAuthor (a : Author) : List Value :=
  [.i a.author_id, .s a.first_name, .s a.last_name, optV a.biography]

/-- The `SELECT *` row of a `genres` entry. -/
def rowOfGenre (g : Genre) : List Value :=
  [.i g.genre_id, .s g.genre_name]

/-- The `SELECT *` row of a `book_genres` entry. -/
def rowOfBG (p : Nat × Nat) : List Value :=
  [.i p.1, .i p.2]

/-- SQLite `column = ?` on an INTEGER-affinity column: numeric affinity
is applied to a text operand, so `'7'` compares equal to `7`
(non-canonical numeric text such as `'7.0'` is outside the model and
compares unequal here; no caller exercises it).  NULL never compares
equal. -/
def intColEq (n : Nat) : Value → Bool
  | .i m => n == m
  | .s t => t.toNat? == some n
  | .null => false

/-- SQLite `column = ?` on a TEXT-affinity column: TEXT affinity is
applied to an integer operand. -/
def textColEq (s : String) : Value → Bool
  | .s t => s == t
  | .i n => s == toString n
  | .null => false

/-- SQLite `column = ?` on a nullable TEXT column: a stored NULL never
compares equal. -/
def optTextColEq : Option String → Value → Bool
  | none, _ => false
  | some s, v => textColEq s v

/-- Whether a `books` row satisfies one equality condition. -/
def bookMatches (b : Book) (c : String) (v : Value) : Bool :=
  match c with
  | "book_id" => intColEq b.book_id v
  | "title" => textColEq b.title v
  | "author_id" => intColEq b.author_id v
  | "publication_year" => optTextColEq b.publication_year v
  | _ => false

/-- Whether an `authors` row satisfies one equality condition. -/
def authorMatches (a : Author) (c : String) (v : Value) : Bool :=
  match c with
  | "author_id" => intColEq a.author_id v
  | "first_name" => textColEq a.first_name v
  | "last_name" => textColEq a.last_name v
  | "biography" => optTextColEq a.biography v
  | _ => false

/-- Whether a `genres` row satisfies one equality condition. -/
def genreMatches (g : Genre) (c : String) (v : Value) : Bool :=
  match c with
  | "genre_id" => intColEq g.genre_id v
  | "genre_name" => textColEq g.genre_name v
  | _ => false

/-- Whether a `book_genres` row satisfies one equality condition. -/
def bgMatches (p : Nat × Nat) (c : String) (v : Value) : Bool :=
  match c with
  | "book_id" => intColEq p.1 v
  | "genre_id" => intColEq p.2 v
  | _ => false

/-- Embeds `select_where`: `SELECT * FROM {table} WHERE c1=? AND ... AND cn=?`.
An empty condition set produces `... WHERE ` — a syntax error, caught
with an empty result; so are an unknown table or column.  The read never
mutates the state (the function consumes `st` and returns only rows). -/
def select_where (table : String) (query : List (String × Value)) (st : DB) :
    List (List Value) :=
  if st.schema = false then []
  else if query.isEmpty then []
  else match table with
  | "books" =>
      if query.all (fun c => isBookCol c.1) then
        (st.books.filter (fun b => query.all (fun c => bookMatches b c.1 c.2))).map rowOfBook
      else []
  | "authors" =>
      if query.all (fun c => isAuthorCol c.1) then
        (st.authors.filter (fun a => query.all (fun c => authorMatches a c.1 c.2))).map rowOfAuthor
      else []
  | "genres" =>
      if query.all (fun c => isGenreCol c.1) then
        (st.genres.filter (fun g => query.all (fun c => genreMatches g c.1 c.2))).map rowOfGenre
      else []
  | "book_genres" =>
      if query.all (fun c => isBGCol c.1) then
        (st.book_genres.filter (fun p => query.all (fun c => bgMatches p c.1 c.2))).map rowOfBG
      else []
  | _ => []

/-- Inner loop of `link_books_to_genres` over one book's sampled genre
ids: each pair goes through `execute_sql`, which swallows the duplicate
composite-key `IntegrityError`. -/
def insertAllGenres (book_id : Nat) : List Nat → DB → DB
  | [], st => st
  | g :: gs, st => insertAllGenres book_id gs (insert_book_genre book_id g st)

/-- Outer loop of `link_books_to_genres`: the `i`-th book id receives the
sample `o i`. -/
def linkGo (o : Nat → List Nat) : Nat → List Nat → DB → DB
  | _, [], st => st
  | i, b :: bs, st => linkGo o (i + 1) bs (insertAllGenres b (o i) st)

/-- The exception escaping `link_books_to_genres`:
`random.randint(1, min(len(genre_ids), 3))` raises `ValueError` when
`genre_ids` is empty. -/
inductive LinkErr where
  | valueError
deriving DecidableEq

/-- Embeds `link_books_to_genres`: for each book id, inserts one association
row per sampled genre id.  The random sampler is modelled by an oracle
`o`, with `o i` standing for the value of
`random.sample(genre_ids, k=random.randint(1, min(len(genre_ids), 3)))`
in the `i`-th iteration.  With a non-empty book list and an empty genre
list, `random.randint(1, 0)` raises `ValueError` in the first iteration,
before any insert. -/
def link_books_to_genres (book_ids genre_ids : List Nat) (o : Nat → List Nat)
    (st : DB) : Except LinkErr DB :=
  match book_ids with
  | [] => .ok st
  | _ :: _ =>
      if genre_ids.isEmpty then .error .valueError
      else .ok (linkGo o 0 book_ids st)

/-- The outcomes `random.sample(genre_ids, k)` with
`k = random.randint(1, min(len(genre_ids), 3))` can produce: a selection
of distinct positions of `genre_ids` (a sub-permutation), of length
between 1 and `min 3 (length genre_ids)`. -/
def ValidOracle (genre_ids : List Nat) (n : Nat) (o : Nat → List Nat) : Prop :=
  ∀ i, i < n → List.Subperm (o i) genre_ids ∧ 1 ≤ (o i).length ∧
    (o i).length ≤ min 3 genre_ids.length

/-- One output record of `print_full_info`, in printed order: book id,
title, author first and last name, biography, publication year, and the
comma-joined genre names (SQL NULL — printed `None` — when there are
none). -/
structure FullRecord where
  rid : Nat
  title : String
  first_name : String
  last_name : String
  biography : Option String
  publication_year : Option String
  genres : Option String
deriving DecidableEq

/-- The `ORDER BY books.book_id` ordering. -/
def bookLe (a b : Book) : Prop := a.book_id ≤ b.book_id

instance : DecidableRel bookLe :=
  fun a b => (inferInstance : Decidable (a.book_id ≤ b.book_id))

instance : IsTotal Book bookLe := ⟨fun a b => Nat.le_total a.book_id b.book_id⟩

instance : IsTrans Book bookLe := ⟨fun _ _ _ => Nat.le_trans⟩

/-- Embeds `GROUP_CONCAT(genres.genre_name, ', ')` for one book: the genre
names reached through `book_genres` in scan order; rows where the LEFT
JOIN found no genre contribute NULL, which `GROUP_CONCAT` skips; an
empty group yields SQL NULL. -/
def genreConcat (st : DB) (bid : Nat) : Option String :=
  match (st.book_genres.filter (fun p => p.1 = bid)).filterMap
      (fun p => (st.genres.find? (fun g => g.genre_id == p.2)).map Genre.genre_name) with
  | [] => none
  | names => some (String.intercalate ", " names)

/-- Embeds `print_full_info`: `books INNER JOIN authors` (a book whose
`author_id` matches no author is dropped by the inner join; `find?` is
adequate because `author_id` is a primary key) `LEFT JOIN book_genres
LEFT JOIN genres`, `GROUP BY books.book_id ORDER BY books.book_id`.
With no schema, the query's error is caught and nothing is printed. -/
def print_full_info (st : DB) : List FullRecord :=
  if st.schema then
    (List.insertionSort bookLe st.books).filterMap (fun b =>
      (st.authors.find? (fun a => a.author_id == b.author_id)).map (fun a =>
        ⟨b.book_id, b.title, a.first_name, a.last_name, a.biography,
         b.publication_year, genreConcat st b.book_id⟩))
  else []

/-! ## Helper lemmas -/

/-- In a list whose key column is duplicate-free, filtering out one
present key removes exactly one element. -/
theorem length_filter_key {α : Type} (f : α → Nat) (i : Nat) :
    ∀ l : List α, (l.map f).Nodup → i ∈ l.map f →
      (l.filter (fun x => f x ≠ i)).length + 1 = l.length := by
  intro l
  induction l with
  | nil => simp
  | cons a l ih =>
    intro hnd hmem
    simp only [List.map_cons, List.nodup_cons] at hnd
    obtain ⟨hna, hnd⟩ := hnd
    simp only [List.map_cons, List.mem_cons] at hmem
    by_cases hia : f a = i
    · have hall : ∀ x ∈ l, f x ≠ i := by
        intro x hx hxi
        exact hna (by rw [hia, ← hxi]; exact List.mem_map_of_mem f hx)
      rw [List.filter_cons_of_neg (by simp [hia]),
        List.filter_eq_self.mpr (by intro x hx; simpa using hall x hx)]
      simp
    · have hmem' : i ∈ l.map f := by
        rcases hmem with h | h
        · exact absurd h.symm hia
        · exact h
      rw [List.filter_cons_of_pos (by simp [hia])]
      simp only [List.length_cons]
      rw [ih hnd hmem']

/-- Repeated `add_genre` performs no write when the genre is already present. -/
theorem add_genre_noop {g : String} {st : DB} (h : genre_exists g st = true) :
    add_genre g st = st := by
  unfold add_genre
  rw [h]
  simp

/-- Iterating `create_tables` beyond the first call changes nothing. -/
theorem create_tables_iterate (st : DB) :
    ∀ m, create_tables^[m] (create_tables st) = create_tables st := by
  intro m
  induction m with
  | zero => rfl
  | succ k ih =>
    rw [Function.iterate_succ_apply,
      show create_tables (create_tables st) = create_tables st from rfl]
    exact ih

/-! ## Claims -/

/-- Claim C3: starting from a store with no genres row named `g`,
calling `add_genre g` twice leaves exactly one row named `g`,
`genre_exists g` is true after the first call, and the second call
performs no write (the state is unchanged by it). -/
theorem C3_add_genre_twice (g : String) (st : DB) (hs : st.schema = true)
    (h0 : ∀ r ∈ st.genres, r.genre_name ≠ g) :
    genre_exists g (add_genre g st) = true ∧
    ((add_genre g (add_genre g st)).genres.filter
        (fun r => r.genre_name = g)).length = 1 ∧
    add_genre g (add_genre g st) = add_genre g st := by
  have hex : genre_exists g st = false := by
    simp only [genre_exists, hs, Bool.true_and, List.any_eq_false]
    intro r hr
    simpa using h0 r hr
  have h1 : add_genre g st =
      { st with genres := st.genres ++ [⟨nextId (st.genres.map Genre.genre_id), g⟩] } := by
    simp [add_genre, hex, hs]
  have h2 : genre_exists g (add_genre g st) = true := by
    rw [h1]
    simp [genre_exists, hs]
  refine ⟨h2, ?_, add_genre_noop h2⟩
  rw [add_genre_noop h2, h1]
  simp only [List.filter_append]
  rw [List.filter_eq_nil_iff.mpr (by intro r hr; simpa using h0 r hr)]
  simp

/-- Claim C3 witness. -/
theorem C3_witness :
    genre_exists "fantasy" (add_genre "fantasy" (create_tables freshDB)) = true ∧
    ((add_genre "fantasy" (add_genre "fantasy" (create_tables freshDB))).genres.filter
        (fun r => r.genre_name = "fantasy")).length = 1 ∧
    add_genre "fantasy" (add_genre "fantasy" (create_tables freshDB)) =
      add_genre "fantasy" (create_tables freshDB) :=
  C3_add_genre_twice "fantasy" (create_tables freshDB) (by decide) (by decide)

/-- Claim C6: with the schema in place, `is_database_empty` is true iff
all four tables have zero rows; it is true immediately after
`create_tables` on a fresh database file, and false after any single
insert into any of the four tables from that state. -/
theorem C6_is_database_empty (st : DB) (hs : st.schema = true)
    (t : String) (aid : Nat) (y fn ln bio : String) (b gid : Nat) :
    (is_database_empty st = true ↔
      (st.books = [] ∧ st.authors = [] ∧ st.genres = [] ∧ st.book_genres = [])) ∧
    is_database_empty (create_tables freshDB) = true ∧
    is_database_empty (add_book t aid y (create_tables freshDB)) = false ∧
    is_database_empty (add_author fn ln bio (create_tables freshDB)) = false ∧
    is_database_empty (add_genre t (create_tables freshDB)) = false ∧
    is_database_empty (insert_book_genre b gid (create_tables freshDB)) = false := by
  refine ⟨?_, by simp [is_database_empty, create_tables, freshDB], ?_, ?_, ?_, ?_⟩
  · simp [is_database_empty, hs, List.isEmpty_iff, and_assoc]
  · simp [is_database_empty, add_book, create_tables, freshDB]
  · simp [is_database_empty, add_author, create_tables, freshDB]
  · simp [is_database_empty, add_genre, genre_exists, create_tables, freshDB]
  · simp [is_database_empty, insert_book_genre, create_tables, freshDB]

/-- Claim C6 witness. -/
theorem C6_witness :
    (is_database_empty (create_tables freshDB) = true ↔
      ((create_tables freshDB).books = [] ∧ (create_tables freshDB).authors = [] ∧
        (create_tables freshDB).genres = [] ∧ (create_tables freshDB).book_genres = [])) ∧
    is_database_empty (create_tables freshDB) = true ∧
    is_database_empty (add_book "T" 1 "2020" (create_tables freshDB)) = false ∧
    is_database_empty (add_author "A" "B" "bio" (create_tables freshDB)) = false ∧
    is_database_empty (add_genre "T" (create_tables freshDB)) = false ∧
    is_database_empty (insert_book_genre 1 1 (create_tables freshDB)) = false :=
  C6_is_database_empty (create_tables freshDB) (by decide) "T" 1 "2020" "A" "B" "bio" 1 1

/-- Claim C7: schema initialization is idempotent — `create_tables`
applied `n ≥ 1` times equals one application, which marks the schema
present while dropping, altering, or losing no row of any table. -/
theorem C7_create_tables_idempotent (st : DB) (n : Nat) (hn : 1 ≤ n) :
    create_tables^[n] st = create_tables st ∧
    (create_tables st).books = st.books ∧
    (create_tables st).authors = st.authors ∧
    (create_tables st).genres = st.genres ∧
    (create_tables st).book_genres = st.book_genres ∧
    (create_tables st).schema = true := by
  refine ⟨?_, rfl, rfl, rfl, rfl, rfl⟩
  obtain ⟨m, rfl⟩ := Nat.exists_eq_add_of_le hn
  rw [Nat.add_comm 1 m, Function.iterate_add_apply, Function.iterate_one]
  exact create_tables_iterate st m

/-- Claim C7 witness. -/
theorem C7_witness :
    create_tables^[3] freshDB = create_tables freshDB ∧
    (create_tables freshDB).books = freshDB.books ∧
    (create_tables freshDB).authors = freshDB.authors ∧
    (create_tables freshDB).genres = freshDB.genres ∧
    (create_tables freshDB).book_genres = freshDB.book_genres ∧
    (create_tables freshDB).schema = true :=
  C7_create_tables_idempotent freshDB 3 (by decide)

/-- Claim C10: `delete(table, 0)` behaves identically to `delete(table)`
with the id omitted — Python's `if id:` treats `0` as absent — so it
deletes every row of the named table, e.g. all of `books`. -/
theorem C10_delete_zero (st : DB) (table : String) :
    delete table (some 0) st = delete table none st ∧
    (st.schema = true → (delete "books" (some 0) st).books = []) := by
  constructor
  · simp only [delete, idTruthy]
    rfl
  · intro hs
    simp [delete, idTruthy, hs]

/-- Claim C10 witness. -/
theorem C10_witness :
    delete "books" (some 0) (add_book "T" 1 "2020" (create_tables freshDB)) =
      delete "books" none (add_book "T" 1 "2020" (create_tables freshDB)) ∧
    ((add_book "T" 1 "2020" (create_tables freshDB)).schema = true →
      (delete "books" (some 0)
        (add_book "T" 1 "2020" (create_tables freshDB))).books = []) :=
  C10_delete_zero (add_book "T" 1 "2020" (create_tables freshDB)) "books"

/-- Claim C1 counterexample: on a store whose `book_genres` table holds
the two rows `(1, 1)` and `(1, 2)`, `delete("book_genres", 1)` removes
both rows — not exactly one — because its per-id query filters on
`book_id`, which is not the composite identity of the association
table. -/
theorem C1_counterexample :
    (delete "book_genres" (some 1)
        (⟨true, [], [], [], [(1, 1), (1, 2)]⟩ : DB)).book_genres = [] ∧
    (⟨true, [], [], [], [(1, 1), (1, 2)]⟩ : DB).book_genres.length = 2 := by
  constructor
  · rfl
  · rfl

/-- Claim C1 amended: `delete(table)` with no id removes all rows of the
named table.  For the three entity tables, `delete(table, id)` with a
nonzero id that is present removes exactly the row with that id and
leaves every other row of every table untouched.  For `book_genres`,
`delete("book_genres", id)` instead removes every association row whose
`book_id` equals the id (other tables untouched). -/
theorem C1_delete_amended (st : DB) (hs : st.schema = true) (hwf : WF st)
    (i : Nat) (hi : i ≠ 0) :
    ((delete "books" none st).books = [] ∧
      (delete "authors" none st).authors = [] ∧
      (delete "genres" none st).genres = [] ∧
      (delete "book_genres" none st).book_genres = []) ∧
    (i ∈ st.books.map Book.book_id →
      (delete "books" (some i) st).books = st.books.filter (fun b => b.book_id ≠ i) ∧
      (delete "books" (some i) st).books.length + 1 = st.books.length) ∧
    ((delete "books" (some i) st).authors = st.authors ∧
      (delete "books" (some i) st).genres = st.genres ∧
      (delete "books" (some i) st).book_genres = st.book_genres) ∧
    (i ∈ st.authors.map Author.author_id →
      (delete "authors" (some i) st).authors =
        st.authors.filter (fun a => a.author_id ≠ i) ∧
      (delete "authors" (some i) st).authors.length + 1 = st.authors.length) ∧
    ((delete "authors" (some i) st).books = st.books ∧
      (delete "authors" (some i) st).genres = st.genres ∧
      (delete "authors" (some i) st).book_genres = st.book_genres) ∧
    (i ∈ st.genres.map Genre.genre_id →
      (delete "genres" (some i) st).genres =
        st.genres.filter (fun g => g.genre_id ≠ i) ∧
      (delete "genres" (some i) st).genres.length + 1 = st.genres.length) ∧
    ((delete "genres" (some i) st).books = st.books ∧
      (delete "genres" (some i) st).authors = st.authors ∧
      (delete "genres" (some i) st).book_genres = st.book_genres) ∧
    ((delete "book_genres" (some i) st).book_genres =
        st.book_genres.filter (fun p => p.1 ≠ i) ∧
      (delete "book_genres" (some i) st).books = st.books ∧
      (delete "book_genres" (some i) st).authors = st.authors ∧
      (delete "book_genres" (some i) st).genres = st.genres) := by
  have hit : idTruthy (some i) = true := by simp [idTruthy, hi]
  refine ⟨by simp [delete, idTruthy, hs], ?_, by simp [delete, hit, hs], ?_,
    by simp [delete, hit, hs], ?_, by simp [delete, hit, hs], by simp [delete, hit, hs]⟩
  · intro hmem
    refine ⟨by simp [delete, hit, hs], ?_⟩
    have := length_filter_key Book.book_id i st.books hwf.1 hmem
    simpa [delete, hit, hs] using this
  · intro hmem
    refine ⟨by simp [delete, hit, hs], ?_⟩
    have := length_filter_key Author.author_id i st.authors hwf.2.1 hmem
    simpa [delete, hit, hs] using this
  · intro hmem
    refine ⟨by simp [delete, hit, hs], ?_⟩
    have := length_filter_key Genre.genre_id i st.genres hwf.2.2.1 hmem
    simpa [delete, hit, hs] using this

/-- Claim C1 witness. -/
theorem C1_witness : let st : DB :=
      ⟨true, [⟨1, "A", 1, some "2000"⟩, ⟨2, "B", 1, none⟩],
        [⟨1, "F", "L", none⟩], [⟨1, "g"⟩], [(1, 1), (2, 1)]⟩
    ((delete "books" none st).books = [] ∧
      (delete "authors" none st).authors = [] ∧
      (delete "genres" none st).genres = [] ∧
      (delete "book_genres" none st).book_genres = []) ∧
    (1 ∈ st.books.map Book.book_id →
      (delete "books" (some 1) st).books = st.books.filter (fun b => b.book_id ≠ 1) ∧
      (delete "books" (some 1) st).books.length + 1 = st.books.length) ∧
    ((delete "books" (some 1) st).authors = st.authors ∧
      (delete "books" (some 1) st).genres = st.genres ∧
      (delete "books" (some 1) st).book_genres = st.book_genres) ∧
    (1 ∈ st.authors.map Author.author_id →
      (delete "authors" (some 1) st).authors =
        st.authors.filter (fun a => a.author_id ≠ 1) ∧
      (delete "authors" (some 1) st).authors.length + 1 = st.authors.length) ∧
    ((delete "authors" (some 1) st).books = st.books ∧
      (delete "authors" (some 1) st).genres = st.genres ∧
      (delete "authors" (some 1) st).book_genres = st.book_genres) ∧
    (1 ∈ st.genres.map Genre.genre_id →
      (delete "genres" (some 1) st).genres =
        st.genres.filter (fun g => g.genre_id ≠ 1) ∧
      (delete "genres" (some 1) st).genres.length + 1 = st.genres.length) ∧
    ((delete "genres" (some 1) st).books = st.books ∧
      (delete "genres" (some 1) st).authors = st.authors ∧
      (delete "genres" (some 1) st).book_genres = st.book_genres) ∧
    ((delete "book_genres" (some 1) st).book_genres =
        st.book_genres.filter (fun p => p.1 ≠ 1) ∧
      (delete "book_genres" (some 1) st).books = st.books ∧
      (delete "book_genres" (some 1) st).authors = st.authors ∧
      (delete "book_genres" (some 1) st).genres = st.genres) :=
  C1_delete_amended
    ⟨true, [⟨1, "A", 1, some "2000"⟩, ⟨2, "B", 1, none⟩],
      [⟨1, "F", "L", none⟩], [⟨1, "g"⟩], [(1, 1), (2, 1)]⟩
    (by decide) (by decide) 1 (by decide)

/-- Claim C2 counterexample: `link_books_to_genres([1], [])` — a caller
input the claim explicitly covers — propagates an uncaught `ValueError`
from `random.randint(1, 0)` instead of a logged neutral result. -/
theorem C2_counterexample :
    link_books_to_genres [1] [] (fun _ => []) (create_tables freshDB) =
      Except.error LinkErr.valueError := rfl

/-- Claim C2 amended: storage failures routed through `execute_sql` are
swallowed, and `update` catches its operational errors (empty field set,
unrecognized table, unknown column) as silent no-ops; but two failures do
escape to the caller: `link_books_to_genres` raises `ValueError` when
the genre id list is empty and the book id list is not (with a non-empty
genre list it always returns normally), and `update`'s integrity
violations are not caught. -/
theorem C2_error_policy_amended (st : DB) (bids gids : List Nat)
    (o : Nat → List Nat) (t : String) (i : Nat) (kvs : List (String × Value)) :
    (gids ≠ [] → ∃ st2, link_books_to_genres bids gids o st = Except.ok st2) ∧
    (bids ≠ [] → link_books_to_genres bids [] o st = Except.error LinkErr.valueError) ∧
    (kvs = [] → update t i kvs st = Except.ok st) ∧
    (t ∉ (["book", "author", "genre"] : List String) →
      update t i kvs st = Except.ok st) ∧
    (kvs.all (fun c => isBookCol c.1) = false →
      update "book" i kvs st = Except.ok st) := by
  refine ⟨?_, ?_, ?_, ?_, ?_⟩
  · intro hg
    cases bids with
    | nil => exact ⟨st, rfl⟩
    | cons b bs =>
      refine ⟨linkGo o 0 (b :: bs) st, ?_⟩
      simp [link_books_to_genres, hg]
  · intro hb
    cases bids with
    | nil => exact absurd rfl hb
    | cons b bs => rfl
  · intro hk
    subst hk
    cases hsch : st.schema <;> simp [update, hsch]
  · intro ht
    simp only [List.mem_cons, List.mem_singleton, not_or] at ht
    obtain ⟨h1, h2, h3⟩ := ht
    unfold update
    by_cases hsch : st.schema = false
    · simp [hsch]
    · rw [if_neg hsch]
      by_cases hk : kvs.isEmpty
      · rw [if_pos hk]
      · rw [if_neg hk]
        split <;> simp_all
  · intro hcol
    cases hsch : st.schema <;> simp [update, hsch, hcol]

/-- Claim C2 witness. -/
theorem C2_witness :
    (([1] : List Nat) ≠ [] → ∃ st2,
      link_books_to_genres [2] [1] (fun _ => [1]) (create_tables freshDB) =
        Except.ok st2) ∧
    (([2] : List Nat) ≠ [] →
      link_books_to_genres [2] [] (fun _ => [1]) (create_tables freshDB) =
        Except.error LinkErr.valueError) ∧
    (([] : List (String × Value)) = [] →
      update "book" 1 [] (create_tables freshDB) = Except.ok (create_tables freshDB)) ∧
    ("bogus" ∉ (["book", "author", "genre"] : List String) →
      update "bogus" 1 [] (create_tables freshDB) = Except.ok (create_tables freshDB)) ∧
    (([("nope", Value.i 3)].all (fun c => isBookCol c.1) = false →
      update "book" 1 [("nope", Value.i 3)] (create_tables freshDB) =
        Except.ok (create_tables freshDB))) := by
  have h := C2_error_policy_amended (create_tables freshDB) [2] [1]
    (fun _ => [1]) "bogus" 1 []
  have h2 := C2_error_policy_amended (create_tables freshDB) [2] [1]
    (fun _ => [1]) "book" 1 [("nope", Value.i 3)]
  exact ⟨fun _ => h.1 (by decide), h.2.1, fun _ => h.2.2.1 rfl,
    fun hb => h.2.2.2.1 hb, fun hc => h2.2.2.2.2 hc⟩

/-- Looking up a present element by a duplicate-free key returns exactly
that element. -/
theorem find?_key_eq {α : Type} (f : α → Nat) :
    ∀ (l : List α) (a : α), (l.map f).Nodup → a ∈ l →
      l.find? (fun x => f x == f a) = some a := by
  intro l
  induction l with
  | nil => simp
  | cons b l ih =>
    intro a hnd hmem
    simp only [List.map_cons, List.nodup_cons] at hnd
    obtain ⟨hnb, hnd⟩ := hnd
    rcases List.mem_cons.mp hmem with rfl | hmem'
    · simp [List.find?_cons]
    · rw [List.find?_cons]
      have hne : (f b == f a) = false := by
        simp only [beq_eq_false_iff_ne, ne_eq]
        intro he
        exact hnb (he ▸ List.mem_map_of_mem f hmem')
      rw [hne]
      exact ih a hnd hmem'

/-- The operation `filterMap` transports a pairwise relation along the extraction. -/
theorem pairwise_filterMap_of_pairwise {α β : Type} (R : α → α → Prop)
    (S : β → β → Prop) (f : α → Option β)
    (h : ∀ a b x y, R a b → f a = some x → f b = some y → S x y) :
    ∀ l : List α, l.Pairwise R → (l.filterMap f).Pairwise S := by
  intro l
  induction l with
  | nil => simp
  | cons a l ih =>
    intro hp
    rw [List.pairwise_cons] at hp
    obtain ⟨hra, hp⟩ := hp
    rw [List.filterMap_cons]
    cases hfa : f a with
    | none => exact ih hp
    | some x =>
      rw [List.pairwise_cons]
      refine ⟨?_, ih hp⟩
      intro y hy
      obtain ⟨b, hbmem, hfb⟩ := List.mem_filterMap.mp hy
      exact h a b x y (hra b hbmem) hfa hfb

/-- The operation `filterMap` keeps the length when the extraction never fails. -/
theorem length_filterMap_of_isSome {α β : Type} (f : α → Option β) :
    ∀ l : List α, (∀ a ∈ l, (f a).isSome) → (l.filterMap f).length = l.length := by
  intro l
  induction l with
  | nil => simp
  | cons a l ih =>
    intro hall
    rw [List.filterMap_cons]
    cases hfa : f a with
    | none =>
      have := hall a (List.mem_cons_self a l)
      rw [hfa] at this
      exact absurd this (by simp)
    | some x =>
      simp only [List.length_cons]
      rw [ih (fun b hb => hall b (List.mem_cons_of_mem a hb))]

/-- Claim C5 counterexample: a store holding one Book whose `author_id`
(5) matches no Author row yields zero records from `print_full_info` —
the INNER JOIN on authors drops the book — so "exactly one record per
Book row" fails. -/
theorem C5_counterexample :
    print_full_info (⟨true, [⟨1, "T", 5, some "2020"⟩], [], [], []⟩ : DB) = [] ∧
    (⟨true, [⟨1, "T", 5, some "2020"⟩], [], [], []⟩ : DB).books.length = 1 := by
  constructor
  · rfl
  · rfl

/-- Searching a list succeeds exactly when some element satisfies the
predicate. -/
theorem find?_isSome_eq_any {α : Type} (p : α → Bool) :
    ∀ l : List α, (l.find? p).isSome = l.any p := by
  intro l
  induction l with
  | nil => rfl
  | cons a l ih => cases hpa : p a <;> simp [List.find?_cons, hpa, ih]

/-- Claim C5 amended: on any store — including one mixing books with and
without a matching author — `print_full_info` produces exactly one
record per Book row whose `author_id` matches an existing Author: the
record count equals the number of matching books, every matching book
contributes its joined record, every emitted record arises from a
matching book, and a book with a dangling author reference (dropped by
the INNER JOIN) contributes no record.  Each record joins the author's
name and biography with the comma-joined genre names (NULL when there
are none), and records are emitted in ascending book id order. -/
theorem C5_print_full_info_amended (st : DB) (hs : st.schema = true)
    (hwb : (st.books.map Book.book_id).Nodup)
    (hwa : (st.authors.map Author.author_id).Nodup) :
    (print_full_info st).length = (st.books.filter (fun b =>
      st.authors.any (fun a => a.author_id == b.author_id))).length ∧
    (print_full_info st).Pairwise (fun r1 r2 => r1.rid ≤ r2.rid) ∧
    (∀ b ∈ st.books, ∀ a ∈ st.authors, a.author_id = b.author_id →
      (⟨b.book_id, b.title, a.first_name, a.last_name, a.biography,
        b.publication_year, genreConcat st b.book_id⟩ : FullRecord) ∈
          print_full_info st) ∧
    (∀ r ∈ print_full_info st, ∃ b ∈ st.books, ∃ a ∈ st.authors,
      a.author_id = b.author_id ∧
        r = ⟨b.book_id, b.title, a.first_name, a.last_name, a.biography,
          b.publication_year, genreConcat st b.book_id⟩) ∧
    (∀ b ∈ st.books, (∀ a ∈ st.authors, a.author_id ≠ b.author_id) →
      ∀ r ∈ print_full_info st, r.rid ≠ b.book_id) := by
  have hpf : print_full_info st =
      (List.insertionSort bookLe st.books).filterMap (fun b =>
        (st.authors.find? (fun a => a.author_id == b.author_id)).map (fun a =>
          ⟨b.book_id, b.title, a.first_name, a.last_name, a.biography,
           b.publication_year, genreConcat st b.book_id⟩)) := by
    simp [print_full_info, hs]
  have hconv : ∀ r ∈ print_full_info st, ∃ b ∈ st.books, ∃ a ∈ st.authors,
      a.author_id = b.author_id ∧
        r = ⟨b.book_id, b.title, a.first_name, a.last_name, a.biography,
          b.publication_year, genreConcat st b.book_id⟩ := by
    intro r hr
    rw [hpf] at hr
    obtain ⟨b, hbmem, hfb⟩ := List.mem_filterMap.mp hr
    obtain ⟨a, hfind, hmk⟩ := Option.map_eq_some'.mp hfb
    refine ⟨b, (List.mem_insertionSort bookLe).mp hbmem,
      a, List.mem_of_find?_eq_some hfind, ?_, hmk.symm⟩
    simpa using List.find?_some hfind
  refine ⟨?_, ?_, ?_, hconv, ?_⟩
  · rw [hpf, List.length_filterMap_eq_countP,
      (List.perm_insertionSort bookLe st.books).countP_eq,
      List.countP_eq_length_filter]
    congr 1
    refine List.filter_congr ?_
    intro b _
    show ((st.authors.find? (fun a => a.author_id == b.author_id)).map (fun a =>
        (⟨b.book_id, b.title, a.first_name, a.last_name, a.biography,
          b.publication_year, genreConcat st b.book_id⟩ : FullRecord))).isSome =
      st.authors.any (fun a => a.author_id == b.author_id)
    rw [Option.isSome_map', find?_isSome_eq_any]
  · rw [hpf]
    refine pairwise_filterMap_of_pairwise bookLe _ _ ?_ _
      (List.sorted_insertionSort bookLe st.books)
    intro b1 b2 x y hr hx hy
    have hx1 : x.rid = b1.book_id := by
      rcases Option.map_eq_some'.mp hx with ⟨a, _, ha2⟩
      rw [← ha2]
    have hy1 : y.rid = b2.book_id := by
      rcases Option.map_eq_some'.mp hy with ⟨a, _, ha2⟩
      rw [← ha2]
    rw [hx1, hy1]
    exact hr
  · intro b hb a hamem haeq
    rw [hpf]
    refine List.mem_filterMap.mpr ⟨b, (List.mem_insertionSort bookLe).mpr hb, ?_⟩
    have hfind : st.authors.find? (fun x => x.author_id == b.author_id) = some a := by
      rw [← haeq]
      exact find?_key_eq Author.author_id st.authors a hwa hamem
    rw [hfind, Option.map_some']
  · intro b hb hnone r hr hrid
    obtain ⟨b2, hb2, a, ha, haeq, hrec⟩ := hconv r hr
    have hid2 : b2.book_id = b.book_id := by
      have hthis := hrid
      rw [hrec] at hthis
      simpa using hthis
    have hbb : b2 = b := List.inj_on_of_nodup_map hwb hb2 hb hid2
    rw [hbb] at haeq
    exact hnone a ha haeq

/-- Claim C5 witness, on a mixed store: books 1 and 2 have matching
authors, book 3's author id 9 is dangling. -/
theorem C5_witness : let st : DB :=
      ⟨true, [⟨2, "B2", 1, some "2001"⟩, ⟨1, "B1", 2, some "2000"⟩,
          ⟨3, "B3", 9, none⟩],
        [⟨1, "F1", "L1", some "bio1"⟩, ⟨2, "F2", "L2", none⟩],
        [⟨1, "fantasy"⟩, ⟨2, "horror"⟩], [(1, 1), (1, 2)]⟩
    (print_full_info st).length = (st.books.filter (fun b =>
      st.authors.any (fun a => a.author_id == b.author_id))).length ∧
    (print_full_info st).Pairwise (fun r1 r2 => r1.rid ≤ r2.rid) ∧
    (∀ b ∈ st.books, ∀ a ∈ st.authors, a.author_id = b.author_id →
      (⟨b.book_id, b.title, a.first_name, a.last_name, a.biography,
        b.publication_year, genreConcat st b.book_id⟩ : FullRecord) ∈
          print_full_info st) ∧
    (∀ r ∈ print_full_info st, ∃ b ∈ st.books, ∃ a ∈ st.authors,
      a.author_id = b.author_id ∧
        r = ⟨b.book_id, b.title, a.first_name, a.last_name, a.biography,
          b.publication_year, genreConcat st b.book_id⟩) ∧
    (∀ b ∈ st.books, (∀ a ∈ st.authors, a.author_id ≠ b.author_id) →
      ∀ r ∈ print_full_info st, r.rid ≠ b.book_id) :=
  C5_print_full_info_amended
    ⟨true, [⟨2, "B2", 1, some "2001"⟩, ⟨1, "B1", 2, some "2000"⟩,
        ⟨3, "B3", 9, none⟩],
      [⟨1, "F1", "L1", some "bio1"⟩, ⟨2, "F2", "L2", none⟩],
      [⟨1, "fantasy"⟩, ⟨2, "horror"⟩], [(1, 1), (1, 2)]⟩
    (by decide) (by decide) (by decide)

/-- Independent column reader for a `books` row (used to state frame
properties and the specification-side view of queries). -/
def getBookCol (b : Book) : String → Option Value
  | "book_id" => some (.i b.book_id)
  | "title" => some (.s b.title)
  | "author_id" => some (.i b.author_id)
  | "publication_year" => some (optV b.publication_year)
  | _ => none

/-- Independent column reader for an `authors` row. -/
def getAuthorCol (a : Author) : String → Option Value
  | "author_id" => some (.i a.author_id)
  | "first_name" => some (.s a.first_name)
  | "last_name" => some (.s a.last_name)
  | "biography" => some (optV a.biography)
  | _ => none

/-- Independent column reader for a `genres` row. -/
def getGenreCol (g : Genre) : String → Option Value
  | "genre_id" => some (.i g.genre_id)
  | "genre_name" => some (.s g.genre_name)
  | _ => none

/-- Independent column reader for a `book_genres` row. -/
def getBGCol (p : Nat × Nat) : String → Option Value
  | "book_id" => some (.i p.1)
  | "genre_id" => some (.i p.2)
  | _ => none

/-- A `SET field = value` item on `books` that is constraint-free: a
data (non-primary-key) column with a value of the column's own kind. -/
def bookFieldOK : String × Value → Bool
  | ("title", .s _) => true
  | ("author_id", .i _) => true
  | ("publication_year", .s _) => true
  | ("publication_year", .null) => true
  | _ => false

/-- A constraint-free `SET field = value` item on `authors`. -/
def authorFieldOK : String × Value → Bool
  | ("first_name", .s _) => true
  | ("last_name", .s _) => true
  | ("biography", .s _) => true
  | ("biography", .null) => true
  | _ => false

/-- A constraint-free `SET field = value` item on `genres`. -/
def genreFieldOK : String × Value → Bool
  | ("genre_name", .s _) => true
  | _ => false

/-- The row produced by a constraint-free single-field update on
`books` (the `Except.ok` branch of `applyBookField`). -/
def bookApplied (f : String) (v : Value) (b : Book) : Book :=
  match f, v with
  | "title", .s t => { b with title := t }
  | "author_id", .i n => { b with author_id := n }
  | "publication_year", .s t => { b with publication_year := some t }
  | "publication_year", .null => { b with publication_year := none }
  | _, _ => b

/-- The row produced by a constraint-free single-field update on
`authors`. -/
def authorApplied (f : String) (v : Value) (a : Author) : Author :=
  match f, v with
  | "first_name", .s t => { a with first_name := t }
  | "last_name", .s t => { a with last_name := t }
  | "biography", .s t => { a with biography := some t }
  | "biography", .null => { a with biography := none }
  | _, _ => a

/-- The row produced by a constraint-free single-field update on
`genres`. -/
def genreApplied (f : String) (v : Value) (g : Genre) : Genre :=
  match f, v with
  | "genre_name", .s t => { g with genre_name := t }
  | _, _ => g

/-- When every matched row rewrites successfully, the table scan of
`UPDATE` maps the per-row rewrite over the table. -/
theorem updateRows_eq_map {ρ : Type} (pk : ρ → Nat) (ap : ρ → Except UErr ρ)
    (u : ρ → ρ) (i : Nat) (h1 : ∀ r, pk r = i → ap r = Except.ok (u r))
    (h2 : ∀ r, pk r ≠ i → u r = r) :
    ∀ l : List ρ, updateRows pk ap i l = Except.ok (l.map u) := by
  intro l
  induction l with
  | nil => rfl
  | cons r rs ih =>
    unfold updateRows
    by_cases hp : pk r = i
    · rw [if_pos hp, h1 r hp, ih]
      rfl
    · rw [if_neg hp, ih]
      simp only [List.map_cons, h2 r hp]

/-- A column name naming none of the `books` columns reads as absent. -/
theorem getBookCol_none (b : Book) (c : String) (hc1 : c ≠ "book_id")
    (hc2 : c ≠ "title") (hc3 : c ≠ "author_id") (hc4 : c ≠ "publication_year") :
    getBookCol b c = none := by
  unfold getBookCol
  split <;> simp_all

/-- Enumeration of the constraint-free single-field updates on
`books`. -/
theorem bookFieldOK_cases {f : String} {v : Value}
    (hok : bookFieldOK (f, v) = true) :
    (f = "title" ∧ ∃ t, v = Value.s t) ∨ (f = "author_id" ∧ ∃ n, v = Value.i n) ∨
      (f = "publication_year" ∧ ∃ t, v = Value.s t) ∨
      (f = "publication_year" ∧ v = Value.null) := by
  unfold bookFieldOK at hok
  split at hok <;> simp_all

/-- Frame property of a constraint-free single-field `update` on
`books`. -/
theorem update_book_frame (st : DB) (hs : st.schema = true)
    (hwf : (st.books.map Book.book_id).Nodup) (i : Nat) (f : String) (v : Value)
    (hok : bookFieldOK (f, v) = true) :
    ∃ bs2, update "book" i [(f, v)] st = Except.ok { st with books := bs2 } ∧
      bs2.length = st.books.length ∧
      ∀ j (hj : j < st.books.length) (hj2 : j < bs2.length),
        ((st.books.get ⟨j, hj⟩).book_id ≠ i →
          bs2.get ⟨j, hj2⟩ = st.books.get ⟨j, hj⟩) ∧
        ((st.books.get ⟨j, hj⟩).book_id = i → ∀ c,
          getBookCol (bs2.get ⟨j, hj2⟩) c =
            if c = f then some v else getBookCol (st.books.get ⟨j, hj⟩) c) := by
  have happ : ∀ b : Book, List.foldlM applyBookField b [(f, v)] =
      Except.ok (bookApplied f v b) := by
    rcases bookFieldOK_cases hok with ⟨rfl, t, rfl⟩ | ⟨rfl, n, rfl⟩ |
      ⟨rfl, t, rfl⟩ | ⟨rfl, rfl⟩ <;> intro b <;> rfl
  have hid : ∀ b : Book, (bookApplied f v b).book_id = b.book_id := by
    rcases bookFieldOK_cases hok with ⟨rfl, t, rfl⟩ | ⟨rfl, n, rfl⟩ |
      ⟨rfl, t, rfl⟩ | ⟨rfl, rfl⟩ <;> intro b <;> rfl
  have hfcol : isBookCol f = true := by
    rcases bookFieldOK_cases hok with ⟨rfl, t, rfl⟩ | ⟨rfl, n, rfl⟩ |
      ⟨rfl, t, rfl⟩ | ⟨rfl, rfl⟩ <;> rfl
  have hcol : ∀ (b : Book) (c : String), getBookCol (bookApplied f v b) c =
      if c = f then some v else getBookCol b c := by
    intro b c
    by_cases h1c : c = "book_id"
    · subst h1c
      rcases bookFieldOK_cases hok with ⟨rfl, t, rfl⟩ | ⟨rfl, n, rfl⟩ |
        ⟨rfl, t, rfl⟩ | ⟨rfl, rfl⟩ <;> simp [getBookCol, bookApplied]
    · by_cases h2c : c = "title"
      · subst h2c
        rcases bookFieldOK_cases hok with ⟨rfl, t, rfl⟩ | ⟨rfl, n, rfl⟩ |
          ⟨rfl, t, rfl⟩ | ⟨rfl, rfl⟩ <;> simp [getBookCol, bookApplied]
      · by_cases h3c : c = "author_id"
        · subst h3c
          rcases bookFieldOK_cases hok with ⟨rfl, t, rfl⟩ | ⟨rfl, n, rfl⟩ |
            ⟨rfl, t, rfl⟩ | ⟨rfl, rfl⟩ <;> simp [getBookCol, bookApplied]
        · by_cases h4c : c = "publication_year"
          · subst h4c
            rcases bookFieldOK_cases hok with ⟨rfl, t, rfl⟩ | ⟨rfl, n, rfl⟩ |
              ⟨rfl, t, rfl⟩ | ⟨rfl, rfl⟩ <;> simp [getBookCol, bookApplied, optV]
          · rw [getBookCol_none _ c h1c h2c h3c h4c,
              getBookCol_none _ c h1c h2c h3c h4c]
            have hcf : c ≠ f := by
              rcases bookFieldOK_cases hok with ⟨rfl, -⟩ | ⟨rfl, -⟩ |
                ⟨rfl, -⟩ | ⟨rfl, -⟩
              · exact h2c
              · exact h3c
              · exact h4c
              · exact h4c
            rw [if_neg hcf]
  have hrows := updateRows_eq_map Book.book_id
    (fun b => List.foldlM applyBookField b [(f, v)])
    (fun b => if b.book_id = i then bookApplied f v b else b) i
    (fun b hb => by
      show List.foldlM applyBookField b [(f, v)] =
        Except.ok (if b.book_id = i then bookApplied f v b else b)
      rw [if_pos hb]
      exact happ b)
    (fun b hb => if_neg hb) st.books
  have hpk : (st.books.map
      (fun b => if b.book_id = i then bookApplied f v b else b)).map
        Book.book_id = st.books.map Book.book_id := by
    rw [List.map_map]
    refine List.map_congr_left ?_
    intro b _
    by_cases hb : b.book_id = i <;> simp [hb, hid b]
  have hnd : ((st.books.map
      (fun b => if b.book_id = i then bookApplied f v b else b)).map
        Book.book_id).Nodup := by
    rw [hpk]; exact hwf
  refine ⟨st.books.map (fun b => if b.book_id = i then bookApplied f v b else b),
    ?_, by simp, ?_⟩
  · simp only [update, hs, hrows, hfcol]
    rw [List.map_map] at hnd
    simp [hnd, hfcol]
  · intro j hj hj2
    constructor
    · intro hne
      have hne2 : ¬ st.books[j].book_id = i := by
        simpa [List.get_eq_getElem] using hne
      simp [List.get_eq_getElem, List.getElem_map, hne2]
    · intro heq c
      have heq2 : st.books[j].book_id = i := by
        simpa [List.get_eq_getElem] using heq
      simp only [List.get_eq_getElem, List.getElem_map, heq2, if_true]
      exact hcol _ c

/-- A column name naming none of the `authors` columns reads as
absent. -/
theorem getAuthorCol_none (a : Author) (c : String) (hc1 : c ≠ "author_id")
    (hc2 : c ≠ "first_name") (hc3 : c ≠ "last_name") (hc4 : c ≠ "biography") :
    getAuthorCol a c = none := by
  unfold getAuthorCol
  split <;> simp_all

/-- Enumeration of the constraint-free single-field updates on
`authors`. -/
theorem authorFieldOK_cases {f : String} {v : Value}
    (hok : authorFieldOK (f, v) = true) :
    (f = "first_name" ∧ ∃ t, v = Value.s t) ∨
      (f = "last_name" ∧ ∃ t, v = Value.s t) ∨
      (f = "biography" ∧ ∃ t, v = Value.s t) ∨
      (f = "biography" ∧ v = Value.null) := by
  unfold authorFieldOK at hok
  split at hok <;> simp_all

/-- Frame property of a constraint-free single-field `update` on
`authors`. -/
theorem update_author_frame (st : DB) (hs : st.schema = true)
    (hwf : (st.authors.map Author.author_id).Nodup) (i : Nat) (f : String)
    (v : Value) (hok : authorFieldOK (f, v) = true) :
    ∃ as2, update "author" i [(f, v)] st = Except.ok { st with authors := as2 } ∧
      as2.length = st.authors.length ∧
      ∀ j (hj : j < st.authors.length) (hj2 : j < as2.length),
        ((st.authors.get ⟨j, hj⟩).author_id ≠ i →
          as2.get ⟨j, hj2⟩ = st.authors.get ⟨j, hj⟩) ∧
        ((st.authors.get ⟨j, hj⟩).author_id = i → ∀ c,
          getAuthorCol (as2.get ⟨j, hj2⟩) c =
            if c = f then some v else getAuthorCol (st.authors.get ⟨j, hj⟩) c) := by
  have happ : ∀ a : Author, List.foldlM applyAuthorField a [(f, v)] =
      Except.ok (authorApplied f v a) := by
    rcases authorFieldOK_cases hok with ⟨rfl, t, rfl⟩ | ⟨rfl, t, rfl⟩ |
      ⟨rfl, t, rfl⟩ | ⟨rfl, rfl⟩ <;> intro a <;> rfl
  have hid : ∀ a : Author, (authorApplied f v a).author_id = a.author_id := by
    rcases authorFieldOK_cases hok with ⟨rfl, t, rfl⟩ | ⟨rfl, t, rfl⟩ |
      ⟨rfl, t, rfl⟩ | ⟨rfl, rfl⟩ <;> intro a <;> rfl
  have hfcol : isAuthorCol f = true := by
    rcases authorFieldOK_cases hok with ⟨rfl, t, rfl⟩ | ⟨rfl, t, rfl⟩ |
      ⟨rfl, t, rfl⟩ | ⟨rfl, rfl⟩ <;> rfl
  have hcol : ∀ (a : Author) (c : String), getAuthorCol (authorApplied f v a) c =
      if c = f then some v else getAuthorCol a c := by
    intro a c
    by_cases h1c : c = "author_id"
    · subst h1c
      rcases authorFieldOK_cases hok with ⟨rfl, t, rfl⟩ | ⟨rfl, t, rfl⟩ |
        ⟨rfl, t, rfl⟩ | ⟨rfl, rfl⟩ <;> simp [getAuthorCol, authorApplied]
    · by_cases h2c : c = "first_name"
      · subst h2c
        rcases authorFieldOK_cases hok with ⟨rfl, t, rfl⟩ | ⟨rfl, t, rfl⟩ |
          ⟨rfl, t, rfl⟩ | ⟨rfl, rfl⟩ <;> simp [getAuthorCol, authorApplied]
      · by_cases h3c : c = "last_name"
        · subst h3c
          rcases authorFieldOK_cases hok with ⟨rfl, t, rfl⟩ | ⟨rfl, t, rfl⟩ |
            ⟨rfl, t, rfl⟩ | ⟨rfl, rfl⟩ <;> simp [getAuthorCol, authorApplied]
        · by_cases h4c : c = "biography"
          · subst h4c
            rcases authorFieldOK_cases hok with ⟨rfl, t, rfl⟩ | ⟨rfl, t, rfl⟩ |
              ⟨rfl, t, rfl⟩ | ⟨rfl, rfl⟩ <;> simp [getAuthorCol, authorApplied, optV]
          · rw [getAuthorCol_none _ c h1c h2c h3c h4c,
              getAuthorCol_none _ c h1c h2c h3c h4c]
            have hcf : c ≠ f := by
              rcases authorFieldOK_cases hok with ⟨rfl, -⟩ | ⟨rfl, -⟩ |
                ⟨rfl, -⟩ | ⟨rfl, -⟩
              · exact h2c
              · exact h3c
              · exact h4c
              · exact h4c
            rw [if_neg hcf]
  have hrows := updateRows_eq_map Author.author_id
    (fun a => List.foldlM applyAuthorField a [(f, v)])
    (fun a => if a.author_id = i then authorApplied f v a else a) i
    (fun a ha => by
      show List.foldlM applyAuthorField a [(f, v)] =
        Except.ok (if a.author_id = i then authorApplied f v a else a)
      rw [if_pos ha]
      exact happ a)
    (fun a ha => if_neg ha) st.authors
  have hpk : (st.authors.map
      (fun a => if a.author_id = i then authorApplied f v a else a)).map
        Author.author_id = st.authors.map Author.author_id := by
    rw [List.map_map]
    refine List.map_congr_left ?_
    intro a _
    by_cases ha : a.author_id = i <;> simp [ha, hid a]
  have hnd : ((st.authors.map
      (fun a => if a.author_id = i then authorApplied f v a else a)).map
        Author.author_id).Nodup := by
    rw [hpk]; exact hwf
  refine ⟨st.authors.map (fun a => if a.author_id = i then authorApplied f v a else a),
    ?_, by simp, ?_⟩
  · simp only [update, hs, hrows, hfcol]
    rw [List.map_map] at hnd
    simp [hnd, hfcol]
  · intro j hj hj2
    constructor
    · intro hne
      have hne2 : ¬ st.authors[j].author_id = i := by
        simpa [List.get_eq_getElem] using hne
      simp [List.get_eq_getElem, List.getElem_map, hne2]
    · intro heq c
      have heq2 : st.authors[j].author_id = i := by
        simpa [List.get_eq_getElem] using heq
      simp only [List.get_eq_getElem, List.getElem_map, heq2, if_true]
      exact hcol _ c

/-- A column name naming none of the `genres` columns reads as
absent. -/
theorem getGenreCol_none (g : Genre) (c : String) (hc1 : c ≠ "genre_id")
    (hc2 : c ≠ "genre_name") :
    getGenreCol g c = none := by
  unfold getGenreCol
  split <;> simp_all

/-- Enumeration of the constraint-free single-field updates on
`genres`. -/
theorem genreFieldOK_cases {f : String} {v : Value}
    (hok : genreFieldOK (f, v) = true) :
    f = "genre_name" ∧ ∃ t, v = Value.s t := by
  unfold genreFieldOK at hok
  split at hok <;> simp_all

/-- Frame property of a constraint-free single-field `update` on
`genres`. -/
theorem update_genre_frame (st : DB) (hs : st.schema = true)
    (hwf : (st.genres.map Genre.genre_id).Nodup) (i : Nat) (f : String)
    (v : Value) (hok : genreFieldOK (f, v) = true) :
    ∃ gs2, update "genre" i [(f, v)] st = Except.ok { st with genres := gs2 } ∧
      gs2.length = st.genres.length ∧
      ∀ j (hj : j < st.genres.length) (hj2 : j < gs2.length),
        ((st.genres.get ⟨j, hj⟩).genre_id ≠ i →
          gs2.get ⟨j, hj2⟩ = st.genres.get ⟨j, hj⟩) ∧
        ((st.genres.get ⟨j, hj⟩).genre_id = i → ∀ c,
          getGenreCol (gs2.get ⟨j, hj2⟩) c =
            if c = f then some v else getGenreCol (st.genres.get ⟨j, hj⟩) c) := by
  obtain ⟨rfl, t, rfl⟩ := genreFieldOK_cases hok
  have hcol : ∀ (g : Genre) (c : String),
      getGenreCol (genreApplied "genre_name" (Value.s t) g) c =
        if c = "genre_name" then some (Value.s t) else getGenreCol g c := by
    intro g c
    by_cases h1c : c = "genre_id"
    · subst h1c; simp [getGenreCol, genreApplied]
    · by_cases h2c : c = "genre_name"
      · subst h2c; simp [getGenreCol, genreApplied]
      · rw [getGenreCol_none _ c h1c h2c, getGenreCol_none _ c h1c h2c,
          if_neg h2c]
  have hrows := updateRows_eq_map Genre.genre_id
    (fun g => List.foldlM applyGenreField g [("genre_name", Value.s t)])
    (fun g => if g.genre_id = i then genreApplied "genre_name" (Value.s t) g else g) i
    (fun g hg => by
      show List.foldlM applyGenreField g [("genre_name", Value.s t)] =
        Except.ok (if g.genre_id = i
          then genreApplied "genre_name" (Value.s t) g else g)
      rw [if_pos hg]
      rfl)
    (fun g hg => if_neg hg) st.genres
  have hpk : (st.genres.map
      (fun g => if g.genre_id = i then genreApplied "genre_name" (Value.s t) g else g)).map
        Genre.genre_id = st.genres.map Genre.genre_id := by
    rw [List.map_map]
    refine List.map_congr_left ?_
    intro g _
    by_cases hg : g.genre_id = i <;> simp [hg, genreApplied]
  have hnd : ((st.genres.map
      (fun g => if g.genre_id = i then genreApplied "genre_name" (Value.s t) g else g)).map
        Genre.genre_id).Nodup := by
    rw [hpk]; exact hwf
  refine ⟨st.genres.map
    (fun g => if g.genre_id = i then genreApplied "genre_name" (Value.s t) g else g),
    ?_, by simp, ?_⟩
  · simp only [update, hs, hrows]
    rw [List.map_map] at hnd
    simp [hnd, isGenreCol]
  · intro j hj hj2
    constructor
    · intro hne
      have hne2 : ¬ st.genres[j].genre_id = i := by
        simpa [List.get_eq_getElem] using hne
      simp [List.get_eq_getElem, List.getElem_map, hne2]
    · intro heq c
      have heq2 : st.genres[j].genre_id = i := by
        simpa [List.get_eq_getElem] using heq
      simp only [List.get_eq_getElem, List.getElem_map, heq2, if_true]
      exact hcol _ c

/-- Claim C8 counterexample: with books 1 and 2 present,
`update("book", 2, book_id=1)` — a single field=value pair on an
existing column — does not change the named field: the UNIQUE
primary-key violation raises `sqlite3.IntegrityError`, which `update`
(catching only `OperationalError`) propagates to the caller, and the row
keeps its old identity. -/
theorem C8_counterexample :
    update "book" 2 [("book_id", Value.i 1)]
      (⟨true, [⟨1, "A", 1, some "2000"⟩, ⟨2, "B", 1, some "2001"⟩],
        [], [], []⟩ : DB) = Except.error UErr.integrity := rfl

/-- Claim C8 amended: for each entity table (`book`, `author`, `genre`;
`book_genres` is not updatable because its WHERE column `book_genre_id`
never exists) and a single field=value pair on an existing non-key
column with a value of the column's kind — so that no constraint is
violated — `update` succeeds, changing only the named field on the rows
whose id matches: every other field of those rows, every other row, and
every other table are unchanged. -/
theorem C8_update_amended (st : DB) (hs : st.schema = true) (hwf : WF st)
    (i : Nat) (f1 f2 f3 : String) (v1 v2 v3 : Value)
    (h1 : bookFieldOK (f1, v1) = true) (h2 : authorFieldOK (f2, v2) = true)
    (h3 : genreFieldOK (f3, v3) = true) :
    (∃ bs2, update "book" i [(f1, v1)] st = Except.ok { st with books := bs2 } ∧
      bs2.length = st.books.length ∧
      ∀ j (hj : j < st.books.length) (hj2 : j < bs2.length),
        ((st.books.get ⟨j, hj⟩).book_id ≠ i →
          bs2.get ⟨j, hj2⟩ = st.books.get ⟨j, hj⟩) ∧
        ((st.books.get ⟨j, hj⟩).book_id = i → ∀ c,
          getBookCol (bs2.get ⟨j, hj2⟩) c =
            if c = f1 then some v1 else getBookCol (st.books.get ⟨j, hj⟩) c)) ∧
    (∃ as2, update "author" i [(f2, v2)] st = Except.ok { st with authors := as2 } ∧
      as2.length = st.authors.length ∧
      ∀ j (hj : j < st.authors.length) (hj2 : j < as2.length),
        ((st.authors.get ⟨j, hj⟩).author_id ≠ i →
          as2.get ⟨j, hj2⟩ = st.authors.get ⟨j, hj⟩) ∧
        ((st.authors.get ⟨j, hj⟩).author_id = i → ∀ c,
          getAuthorCol (as2.get ⟨j, hj2⟩) c =
            if c = f2 then some v2 else getAuthorCol (st.authors.get ⟨j, hj⟩) c)) ∧
    (∃ gs2, update "genre" i [(f3, v3)] st = Except.ok { st with genres := gs2 } ∧
      gs2.length = st.genres.length ∧
      ∀ j (hj : j < st.genres.length) (hj2 : j < gs2.length),
        ((st.genres.get ⟨j, hj⟩).genre_id ≠ i →
          gs2.get ⟨j, hj2⟩ = st.genres.get ⟨j, hj⟩) ∧
        ((st.genres.get ⟨j, hj⟩).genre_id = i → ∀ c,
          getGenreCol (gs2.get ⟨j, hj2⟩) c =
            if c = f3 then some v3 else getGenreCol (st.genres.get ⟨j, hj⟩) c)) :=
  ⟨update_book_frame st hs hwf.1 i f1 v1 h1,
    update_author_frame st hs hwf.2.1 i f2 v2 h2,
    update_genre_frame st hs hwf.2.2.1 i f3 v3 h3⟩

/-- Claim C8 witness. -/
theorem C8_witness : let st : DB :=
      ⟨true, [⟨1, "A", 1, some "2000"⟩, ⟨2, "B", 1, none⟩],
        [⟨1, "F", "L", none⟩], [⟨1, "g"⟩], [(1, 1)]⟩
    (∃ bs2, update "book" 1 [("title", Value.s "X")] st =
        Except.ok { st with books := bs2 } ∧
      bs2.length = st.books.length ∧
      ∀ j (hj : j < st.books.length) (hj2 : j < bs2.length),
        ((st.books.get ⟨j, hj⟩).book_id ≠ 1 →
          bs2.get ⟨j, hj2⟩ = st.books.get ⟨j, hj⟩) ∧
        ((st.books.get ⟨j, hj⟩).book_id = 1 → ∀ c,
          getBookCol (bs2.get ⟨j, hj2⟩) c =
            if c = "title" then some (Value.s "X")
            else getBookCol (st.books.get ⟨j, hj⟩) c)) ∧
    (∃ as2, update "author" 1 [("biography", Value.null)] st =
        Except.ok { st with authors := as2 } ∧
      as2.length = st.authors.length ∧
      ∀ j (hj : j < st.authors.length) (hj2 : j < as2.length),
        ((st.authors.get ⟨j, hj⟩).author_id ≠ 1 →
          as2.get ⟨j, hj2⟩ = st.authors.get ⟨j, hj⟩) ∧
        ((st.authors.get ⟨j, hj⟩).author_id = 1 → ∀ c,
          getAuthorCol (as2.get ⟨j, hj2⟩) c =
            if c = "biography" then some Value.null
            else getAuthorCol (st.authors.get ⟨j, hj⟩) c)) ∧
    (∃ gs2, update "genre" 1 [("genre_name", Value.s "h")] st =
        Except.ok { st with genres := gs2 } ∧
      gs2.length = st.genres.length ∧
      ∀ j (hj : j < st.genres.length) (hj2 : j < gs2.length),
        ((st.genres.get ⟨j, hj⟩).genre_id ≠ 1 →
          gs2.get ⟨j, hj2⟩ = st.genres.get ⟨j, hj⟩) ∧
        ((st.genres.get ⟨j, hj⟩).genre_id = 1 → ∀ c,
          getGenreCol (gs2.get ⟨j, hj2⟩) c =
            if c = "genre_name" then some (Value.s "h")
            else getGenreCol (st.genres.get ⟨j, hj⟩) c)) :=
  C8_update_amended
    ⟨true, [⟨1, "A", 1, some "2000"⟩, ⟨2, "B", 1, none⟩],
      [⟨1, "F", "L", none⟩], [⟨1, "g"⟩], [(1, 1)]⟩
    (by decide) (by decide) 1 "title" "biography" "genre_name"
    (Value.s "X") Value.null (Value.s "h") (by decide) (by decide) (by decide)

/-- An equality condition on `books` whose value has the column's own
kind (SQLite's affinity conversions then change nothing). -/
def bookCondTyped : String × Value → Bool
  | ("book_id", .i _) => true
  | ("title", .s _) => true
  | ("author_id", .i _) => true
  | ("publication_year", .s _) => true
  | _ => false

/-- A kind-matched equality condition on `authors`. -/
def authorCondTyped : String × Value → Bool
  | ("author_id", .i _) => true
  | ("first_name", .s _) => true
  | ("last_name", .s _) => true
  | ("biography", .s _) => true
  | _ => false

/-- A kind-matched equality condition on `genres`. -/
def genreCondTyped : String × Value → Bool
  | ("genre_id", .i _) => true
  | ("genre_name", .s _) => true
  | _ => false

/-- A kind-matched equality condition on `book_genres`. -/
def bgCondTyped : String × Value → Bool
  | ("book_id", .i _) => true
  | ("genre_id", .i _) => true
  | _ => false

/-- The predicate `all` only inspects members. -/
theorem all_congr_mem {α : Type} (l : List α) (f g : α → Bool)
    (h : ∀ x ∈ l, f x = g x) : l.all f = l.all g := by
  induction l with
  | nil => rfl
  | cons a l ih =>
    simp only [List.all_cons, h a (List.mem_cons_self a l)]
    rw [ih (fun x hx => h x (List.mem_cons_of_mem a hx))]

/-- On a kind-matched condition, the SQL comparison on `books` agrees
with the specification-side reading "the stored column value equals the
given value". -/
theorem bookMatches_eq_spec (b : Book) (c : String) (v : Value)
    (h : bookCondTyped (c, v) = true) :
    bookMatches b c v = (getBookCol b c == some v) := by
  have hc : (c = "book_id" ∧ ∃ n, v = Value.i n) ∨
      (c = "title" ∧ ∃ t, v = Value.s t) ∨
      (c = "author_id" ∧ ∃ n, v = Value.i n) ∨
      (c = "publication_year" ∧ ∃ t, v = Value.s t) := by
    unfold bookCondTyped at h
    split at h <;> simp_all
  rcases hc with ⟨rfl, n, rfl⟩ | ⟨rfl, t, rfl⟩ | ⟨rfl, n, rfl⟩ | ⟨rfl, t, rfl⟩
  · by_cases hbn : b.book_id = n <;>
      simp [bookMatches, intColEq, getBookCol, hbn]
  · by_cases hbt : b.title = t <;>
      simp [bookMatches, textColEq, getBookCol, hbt]
  · by_cases hbn : b.author_id = n <;>
      simp [bookMatches, intColEq, getBookCol, hbn]
  · cases hpy : b.publication_year with
    | none => simp [bookMatches, optTextColEq, getBookCol, hpy, optV]
    | some s =>
      by_cases hst : s = t <;>
        simp [bookMatches, optTextColEq, textColEq, getBookCol, hpy, optV, hst]

/-- Kind-matched conditions name only `books` columns. -/
theorem bookCondTyped_col {c : String} {v : Value}
    (h : bookCondTyped (c, v) = true) : isBookCol c = true := by
  unfold bookCondTyped at h
  split at h <;> simp_all [isBookCol]

/-- On a kind-matched condition, the SQL comparison on `authors` agrees
with the specification-side reading. -/
theorem authorMatches_eq_spec (a : Author) (c : String) (v : Value)
    (h : authorCondTyped (c, v) = true) :
    authorMatches a c v = (getAuthorCol a c == some v) := by
  have hc : (c = "author_id" ∧ ∃ n, v = Value.i n) ∨
      (c = "first_name" ∧ ∃ t, v = Value.s t) ∨
      (c = "last_name" ∧ ∃ t, v = Value.s t) ∨
      (c = "biography" ∧ ∃ t, v = Value.s t) := by
    unfold authorCondTyped at h
    split at h <;> simp_all
  rcases hc with ⟨rfl, n, rfl⟩ | ⟨rfl, t, rfl⟩ | ⟨rfl, t, rfl⟩ | ⟨rfl, t, rfl⟩
  · by_cases hn : a.author_id = n <;>
      simp [authorMatches, intColEq, getAuthorCol, hn]
  · by_cases ht : a.first_name = t <;>
      simp [authorMatches, textColEq, getAuthorCol, ht]
  · by_cases ht : a.last_name = t <;>
      simp [authorMatches, textColEq, getAuthorCol, ht]
  · cases hb : a.biography with
    | none => simp [authorMatches, optTextColEq, getAuthorCol, hb, optV]
    | some s =>
      by_cases hst : s = t <;>
        simp [authorMatches, optTextColEq, textColEq, getAuthorCol, hb, optV, hst]

/-- Kind-matched conditions name only `authors` columns. -/
theorem authorCondTyped_col {c : String} {v : Value}
    (h : authorCondTyped (c, v) = true) : isAuthorCol c = true := by
  unfold authorCondTyped at h
  split at h <;> simp_all [isAuthorCol]

/-- On a kind-matched condition, the SQL comparison on `genres` agrees
with the specification-side reading. -/
theorem genreMatches_eq_spec (g : Genre) (c : String) (v : Value)
    (h : genreCondTyped (c, v) = true) :
    genreMatches g c v = (getGenreCol g c == some v) := by
  have hc : (c = "genre_id" ∧ ∃ n, v = Value.i n) ∨
      (c = "genre_name" ∧ ∃ t, v = Value.s t) := by
    unfold genreCondTyped at h
    split at h <;> simp_all
  rcases hc with ⟨rfl, n, rfl⟩ | ⟨rfl, t, rfl⟩
  · by_cases hn : g.genre_id = n <;>
      simp [genreMatches, intColEq, getGenreCol, hn]
  · by_cases ht : g.genre_name = t <;>
      simp [genreMatches, textColEq, getGenreCol, ht]

/-- Kind-matched conditions name only `genres` columns. -/
theorem genreCondTyped_col {c : String} {v : Value}
    (h : genreCondTyped (c, v) = true) : isGenreCol c = true := by
  unfold genreCondTyped at h
  split at h <;> simp_all [isGenreCol]

/-- On a kind-matched condition, the SQL comparison on `book_genres`
agrees with the specification-side reading. -/
theorem bgMatches_eq_spec (p : Nat × Nat) (c : String) (v : Value)
    (h : bgCondTyped (c, v) = true) :
    bgMatches p c v = (getBGCol p c == some v) := by
  have hc : (c = "book_id" ∧ ∃ n, v = Value.i n) ∨
      (c = "genre_id" ∧ ∃ n, v = Value.i n) := by
    unfold bgCondTyped at h
    split at h <;> simp_all
  rcases hc with ⟨rfl, n, rfl⟩ | ⟨rfl, n, rfl⟩
  · by_cases hn : p.1 = n <;> simp [bgMatches, intColEq, getBGCol, hn]
  · by_cases hn : p.2 = n <;> simp [bgMatches, intColEq, getBGCol, hn]

/-- Kind-matched conditions name only `book_genres` columns. -/
theorem bgCondTyped_col {c : String} {v : Value}
    (h : bgCondTyped (c, v) = true) : isBGCol c = true := by
  unfold bgCondTyped at h
  split at h <;> simp_all [isBGCol]

/-- Claim C9: `select_where` returns exactly the rows of the named table
satisfying the conjunction of all given equality conditions (stated
against the independent column readers, for kind-matched conditions
where SQLite's affinity conversions change nothing), and a call with an
empty condition set produces an invalid query whose failure is caught,
yielding an empty result; the read never mutates the store. -/
theorem C9_select_where (st : DB) (hs : st.schema = true) (t : String)
    (q1 q2 q3 q4 : List (String × Value)) :
    (q1 ≠ [] → q1.all bookCondTyped = true →
      select_where "books" q1 st = (st.books.filter (fun b =>
        q1.all (fun c => getBookCol b c.1 == some c.2))).map rowOfBook) ∧
    (q2 ≠ [] → q2.all authorCondTyped = true →
      select_where "authors" q2 st = (st.authors.filter (fun a =>
        q2.all (fun c => getAuthorCol a c.1 == some c.2))).map rowOfAuthor) ∧
    (q3 ≠ [] → q3.all genreCondTyped = true →
      select_where "genres" q3 st = (st.genres.filter (fun g =>
        q3.all (fun c => getGenreCol g c.1 == some c.2))).map rowOfGenre) ∧
    (q4 ≠ [] → q4.all bgCondTyped = true →
      select_where "book_genres" q4 st = (st.book_genres.filter (fun p =>
        q4.all (fun c => getBGCol p c.1 == some c.2))).map rowOfBG) ∧
    select_where t [] st = [] := by
  refine ⟨?_, ?_, ?_, ?_, ?_⟩
  · intro hq htyped
    rw [List.all_eq_true] at htyped
    have hcols : q1.all (fun c => isBookCol c.1) = true := by
      rw [List.all_eq_true]
      intro c hcmem
      exact bookCondTyped_col (htyped c hcmem)
    have hqne : q1.isEmpty = false := by
      cases q1 with
      | nil => exact absurd rfl hq
      | cons c q => rfl
    simp only [select_where, hs, hqne, hcols]
    simp only [Bool.true_eq_false, Bool.false_eq_true, if_false, if_true,
      ite_true, ite_false]
    congr 1
    refine List.filter_congr ?_
    intro b _
    refine all_congr_mem q1 _ _ ?_
    intro c hcmem
    exact bookMatches_eq_spec b c.1 c.2
      (by rw [show (c.1, c.2) = c from rfl]; exact htyped c hcmem)
  · intro hq htyped
    rw [List.all_eq_true] at htyped
    have hcols : q2.all (fun c => isAuthorCol c.1) = true := by
      rw [List.all_eq_true]
      intro c hcmem
      exact authorCondTyped_col (htyped c hcmem)
    have hqne : q2.isEmpty = false := by
      cases q2 with
      | nil => exact absurd rfl hq
      | cons c q => rfl
    simp only [select_where, hs, hqne, hcols]
    simp only [Bool.true_eq_false, Bool.false_eq_true, if_false, if_true,
      ite_true, ite_false]
    congr 1
    refine List.filter_congr ?_
    intro a _
    refine all_congr_mem q2 _ _ ?_
    intro c hcmem
    exact authorMatches_eq_spec a c.1 c.2
      (by rw [show (c.1, c.2) = c from rfl]; exact htyped c hcmem)
  · intro hq htyped
    rw [List.all_eq_true] at htyped
    have hcols : q3.all (fun c => isGenreCol c.1) = true := by
      rw [List.all_eq_true]
      intro c hcmem
      exact genreCondTyped_col (htyped c hcmem)
    have hqne : q3.isEmpty = false := by
      cases q3 with
      | nil => exact absurd rfl hq
      | cons c q => rfl
    simp only [select_where, hs, hqne, hcols]
    simp only [Bool.true_eq_false, Bool.false_eq_true, if_false, if_true,
      ite_true, ite_false]
    congr 1
    refine List.filter_congr ?_
    intro g _
    refine all_congr_mem q3 _ _ ?_
    intro c hcmem
    exact genreMatches_eq_spec g c.1 c.2
      (by rw [show (c.1, c.2) = c from rfl]; exact htyped c hcmem)
  · intro hq htyped
    rw [List.all_eq_true] at htyped
    have hcols : q4.all (fun c => isBGCol c.1) = true := by
      rw [List.all_eq_true]
      intro c hcmem
      exact bgCondTyped_col (htyped c hcmem)
    have hqne : q4.isEmpty = false := by
      cases q4 with
      | nil => exact absurd rfl hq
      | cons c q => rfl
    simp only [select_where, hs, hqne, hcols]
    simp only [Bool.true_eq_false, Bool.false_eq_true, if_false, if_true,
      ite_true, ite_false]
    congr 1
    refine List.filter_congr ?_
    intro p _
    refine all_congr_mem q4 _ _ ?_
    intro c hcmem
    exact bgMatches_eq_spec p c.1 c.2
      (by rw [show (c.1, c.2) = c from rfl]; exact htyped c hcmem)
  · cases hsch : st.schema <;> simp [select_where, hsch]

/-- Claim C9 witness. -/
theorem C9_witness : let st : DB :=
      ⟨true, [⟨1, "A", 1, some "2000"⟩, ⟨2, "B", 2, some "2001"⟩],
        [⟨1, "F", "L", none⟩], [⟨1, "g"⟩], [(1, 1)]⟩
    (([("publication_year", Value.s "2000")] :
        List (String × Value)) ≠ [] →
      [("publication_year", Value.s "2000")].all bookCondTyped = true →
      select_where "books" [("publication_year", Value.s "2000")] st =
        (st.books.filter (fun b =>
          [("publication_year", Value.s "2000")].all
            (fun c => getBookCol b c.1 == some c.2))).map rowOfBook) ∧
    (([("first_name", Value.s "F")] : List (String × Value)) ≠ [] →
      [("first_name", Value.s "F")].all authorCondTyped = true →
      select_where "authors" [("first_name", Value.s "F")] st =
        (st.authors.filter (fun a =>
          [("first_name", Value.s "F")].all
            (fun c => getAuthorCol a c.1 == some c.2))).map rowOfAuthor) ∧
    (([("genre_name", Value.s "g")] : List (String × Value)) ≠ [] →
      [("genre_name", Value.s "g")].all genreCondTyped = true →
      select_where "genres" [("genre_name", Value.s "g")] st =
        (st.genres.filter (fun g =>
          [("genre_name", Value.s "g")].all
            (fun c => getGenreCol g c.1 == some c.2))).map rowOfGenre) ∧
    (([("book_id", Value.i 1), ("genre_id", Value.i 1)] :
        List (String × Value)) ≠ [] →
      [("book_id", Value.i 1), ("genre_id", Value.i 1)].all bgCondTyped = true →
      select_where "book_genres" [("book_id", Value.i 1), ("genre_id", Value.i 1)] st =
        (st.book_genres.filter (fun p =>
          [("book_id", Value.i 1), ("genre_id", Value.i 1)].all
            (fun c => getBGCol p c.1 == some c.2))).map rowOfBG) ∧
    select_where "books" [] st = [] :=
  C9_select_where
    ⟨true, [⟨1, "A", 1, some "2000"⟩, ⟨2, "B", 2, some "2001"⟩],
      [⟨1, "F", "L", none⟩], [⟨1, "g"⟩], [(1, 1)]⟩
    (by decide) "books"
    [("publication_year", Value.s "2000")]
    [("first_name", Value.s "F")]
    [("genre_name", Value.s "g")]
    [("book_id", Value.i 1), ("genre_id", Value.i 1)]

/-- One association insert leaves the schema flag unchanged. -/
theorem insert_book_genre_schema (b g : Nat) (st : DB) :
    (insert_book_genre b g st).schema = st.schema := by
  unfold insert_book_genre
  split
  · split <;> rfl
  · rfl

/-- Membership in `book_genres` after one association insert. -/
theorem mem_insert_book_genre (b g : Nat) (st : DB) (hs : st.schema = true)
    (p : Nat × Nat) :
    p ∈ (insert_book_genre b g st).book_genres ↔
      p ∈ st.book_genres ∨ p = (b, g) := by
  unfold insert_book_genre
  rw [if_pos hs]
  by_cases hm : (b, g) ∈ st.book_genres
  · rw [if_pos hm]
    constructor
    · exact fun h => Or.inl h
    · rintro (h | rfl)
      · exact h
      · exact hm
  · rw [if_neg hm]
    simp [List.mem_append]

/-- One association insert preserves freedom from duplicates (the
composite primary key rejects an exact duplicate pair). -/
theorem nodup_insert_book_genre (b g : Nat) (st : DB)
    (h : st.book_genres.Nodup) :
    (insert_book_genre b g st).book_genres.Nodup := by
  unfold insert_book_genre
  split
  · split
    · exact h
    · simp_all [List.nodup_append]
  · exact h

/-- The inner loop of `link_books_to_genres` leaves the schema flag
unchanged. -/
theorem insertAllGenres_schema (b : Nat) :
    ∀ (gs : List Nat) (st : DB), (insertAllGenres b gs st).schema = st.schema := by
  intro gs
  induction gs with
  | nil => intro st; rfl
  | cons g gs ih =>
    intro st
    rw [show insertAllGenres b (g :: gs) st =
      insertAllGenres b gs (insert_book_genre b g st) from rfl]
    rw [ih, insert_book_genre_schema]

/-- Membership in `book_genres` after the inner loop of
`link_books_to_genres`. -/
theorem mem_insertAllGenres (b : Nat) :
    ∀ (gs : List Nat) (st : DB), st.schema = true → ∀ p : Nat × Nat,
      (p ∈ (insertAllGenres b gs st).book_genres ↔
        p ∈ st.book_genres ∨ (p.1 = b ∧ p.2 ∈ gs)) := by
  intro gs
  induction gs with
  | nil =>
    intro st hs p
    simp [insertAllGenres]
  | cons g gs ih =>
    intro st hs p
    have hs2 : (insert_book_genre b g st).schema = true := by
      rw [insert_book_genre_schema]
      exact hs
    rw [show insertAllGenres b (g :: gs) st =
      insertAllGenres b gs (insert_book_genre b g st) from rfl]
    rw [ih (insert_book_genre b g st) hs2 p]
    rw [mem_insert_book_genre b g st hs p]
    constructor
    · rintro ((h | rfl) | ⟨h1, h2⟩)
      · exact Or.inl h
      · exact Or.inr ⟨rfl, List.mem_cons_self g gs⟩
      · exact Or.inr ⟨h1, List.mem_cons_of_mem g h2⟩
    · rintro (h | ⟨h1, h2⟩)
      · exact Or.inl (Or.inl h)
      · rcases List.mem_cons.mp h2 with h2 | h2
        · refine Or.inl (Or.inr ?_)
          rw [← h1, ← h2]
        · exact Or.inr ⟨h1, h2⟩

/-- The inner loop preserves freedom from duplicate pairs. -/
theorem nodup_insertAllGenres (b : Nat) :
    ∀ (gs : List Nat) (st : DB), st.book_genres.Nodup →
      (insertAllGenres b gs st).book_genres.Nodup := by
  intro gs
  induction gs with
  | nil => intro st h; exact h
  | cons g gs ih =>
    intro st h
    exact ih _ (nodup_insert_book_genre b g st h)

/-- The outer loop of `link_books_to_genres` leaves the schema flag
unchanged. -/
theorem linkGo_schema (o : Nat → List Nat) :
    ∀ (bs : List Nat) (k : Nat) (st : DB),
      (linkGo o k bs st).schema = st.schema := by
  intro bs
  induction bs with
  | nil => intro k st; rfl
  | cons b bs ih =>
    intro k st
    rw [show linkGo o k (b :: bs) st =
      linkGo o (k + 1) bs (insertAllGenres b (o k) st) from rfl]
    rw [ih, insertAllGenres_schema]

/-- The outer loop preserves freedom from duplicate pairs. -/
theorem nodup_linkGo (o : Nat → List Nat) :
    ∀ (bs : List Nat) (k : Nat) (st : DB), st.book_genres.Nodup →
      (linkGo o k bs st).book_genres.Nodup := by
  intro bs
  induction bs with
  | nil => intro k st h; exact h
  | cons b bs ih =>
    intro k st h
    exact ih _ _ (nodup_insertAllGenres b (o k) st h)

/-- Membership in `book_genres` after the outer loop: a pair is present
iff it was, or its book is the `j`-th processed book and its genre was
sampled for it. -/
theorem mem_linkGo (o : Nat → List Nat) :
    ∀ (bs : List Nat) (k : Nat) (st : DB), st.schema = true → ∀ p : Nat × Nat,
      (p ∈ (linkGo o k bs st).book_genres ↔
        p ∈ st.book_genres ∨
          ∃ j, ∃ hj : j < bs.length, p.1 = bs.get ⟨j, hj⟩ ∧ p.2 ∈ o (k + j)) := by
  intro bs
  induction bs with
  | nil =>
    intro k st hs p
    simp [linkGo]
  | cons b bs ih =>
    intro k st hs p
    have hs2 : (insertAllGenres b (o k) st).schema = true := by
      rw [insertAllGenres_schema]
      exact hs
    rw [show linkGo o k (b :: bs) st =
      linkGo o (k + 1) bs (insertAllGenres b (o k) st) from rfl]
    rw [ih (k + 1) _ hs2 p]
    rw [mem_insertAllGenres b (o k) st hs p]
    constructor
    · rintro ((h | ⟨h1, h2⟩) | ⟨j, hj, h1, h2⟩)
      · exact Or.inl h
      · refine Or.inr ⟨0, by simp, by simpa using h1, by simpa using h2⟩
      · refine Or.inr ⟨j + 1, by simpa using Nat.succ_lt_succ hj, ?_, ?_⟩
        · simpa using h1
        · have hk : k + (j + 1) = (k + 1) + j := by omega
          rw [hk]
          exact h2
    · rintro (h | ⟨j, hj, h1, h2⟩)
      · exact Or.inl (Or.inl h)
      · cases j with
        | zero =>
          refine Or.inl (Or.inr ⟨by simpa using h1, by simpa using h2⟩)
        | succ j2 =>
          refine Or.inr ⟨j2, Nat.lt_of_succ_lt_succ (by simpa using hj), ?_, ?_⟩
          · simpa using h1
          · have hk : (k + 1) + j2 = k + (j2 + 1) := by omega
            rw [hk]
            exact h2

/-- Claim C4 counterexample: with a duplicated book id in the list —
`link_books_to_genres([1, 1], [10, 20, 30, 40, 50, 60])` — two disjoint
random samples of size 3 (a possible outcome, witnessed by the oracle
being valid) leave book 1 with six distinct associated genres, exceeding
`min(3, |G|) = 3`. -/
theorem C4_counterexample :
    ValidOracle [10, 20, 30, 40, 50, 60] 2
      (fun i => if i = 0 then [10, 20, 30] else [40, 50, 60]) ∧
    link_books_to_genres [1, 1] [10, 20, 30, 40, 50, 60]
      (fun i => if i = 0 then [10, 20, 30] else [40, 50, 60])
      (create_tables freshDB) =
      Except.ok (⟨true, [], [], [],
        [(1, 10), (1, 20), (1, 30), (1, 40), (1, 50), (1, 60)]⟩ : DB) ∧
    (((⟨true, [], [], [],
        [(1, 10), (1, 20), (1, 30), (1, 40), (1, 50), (1, 60)]⟩ : DB).book_genres.filter
          (fun p => p.1 = 1)).map Prod.snd).length = 6 ∧
    ¬ (6 ≤ min 3 ([10, 20, 30, 40, 50, 60] : List Nat).length) := by
  refine ⟨?_, rfl, rfl, by decide⟩
  intro i hi
  by_cases h0 : i = 0
  · subst h0
    refine ⟨?_, by decide, by decide⟩
    show List.Subperm (if (0 : Nat) = 0 then [10, 20, 30] else [40, 50, 60])
      [10, 20, 30, 40, 50, 60]
    rw [if_pos rfl]
    exact (List.sublist_append_left [10, 20, 30] [40, 50, 60]).subperm
  · refine ⟨?_, ?_, ?_⟩
    · show List.Subperm (if i = 0 then [10, 20, 30] else [40, 50, 60])
        [10, 20, 30, 40, 50, 60]
      rw [if_neg h0]
      exact (List.sublist_append_right [10, 20, 30] [40, 50, 60]).subperm
    · show 1 ≤ (if i = 0 then [10, 20, 30] else [40, 50, 60] : List Nat).length
      rw [if_neg h0]
      decide
    · show (if i = 0 then [10, 20, 30] else [40, 50, 60] : List Nat).length ≤
        min 3 ([10, 20, 30, 40, 50, 60] : List Nat).length
      rw [if_neg h0]
      decide

/-- Claim C4 amended: for a duplicate-free list of book ids B and a
non-empty list of genre ids G, after `link_books_to_genres(B, G)` on a
store with no prior associations — for any outcome of the random
sampler — every book in B is associated with between 1 and
`min(3, |G|)` distinct genre ids, all drawn from G.  (With a duplicated
book id the bound can be exceeded, as the counterexample shows.) -/
theorem C4_link_bounds (st : DB) (hs : st.schema = true)
    (hbg : st.book_genres = []) (bids gids : List Nat) (o : Nat → List Nat)
    (hnd : bids.Nodup) (hg : gids ≠ []) (ho : ValidOracle gids bids.length o)
    (b : Nat) (hb : b ∈ bids) :
    ∃ st2, link_books_to_genres bids gids o st = Except.ok st2 ∧
      ((st2.book_genres.filter (fun p => p.1 = b)).map Prod.snd).Nodup ∧
      1 ≤ ((st2.book_genres.filter (fun p => p.1 = b)).map Prod.snd).length ∧
      ((st2.book_genres.filter (fun p => p.1 = b)).map Prod.snd).length ≤
        min 3 gids.length ∧
      ∀ g ∈ (st2.book_genres.filter (fun p => p.1 = b)).map Prod.snd, g ∈ gids := by
  obtain ⟨⟨jb, hjb⟩, hbeq⟩ := List.mem_iff_get.mp hb
  have hlink : link_books_to_genres bids gids o st =
      Except.ok (linkGo o 0 bids st) := by
    cases bids with
    | nil => exact absurd hjb (by simp)
    | cons b0 bs =>
      have hge : gids.isEmpty = false := by
        cases gids with
        | nil => exact absurd rfl hg
        | cons g0 gs => rfl
      simp [link_books_to_genres, hge]
  refine ⟨linkGo o 0 bids st, hlink, ?_⟩
  have hmem : ∀ p : Nat × Nat, p ∈ (linkGo o 0 bids st).book_genres ↔
      ∃ j, ∃ hj : j < bids.length, p.1 = bids.get ⟨j, hj⟩ ∧ p.2 ∈ o j := by
    intro p
    rw [mem_linkGo o bids 0 st hs p, hbg]
    simp only [List.not_mem_nil, false_or, Nat.zero_add]
  have hmemb : ∀ g : Nat, (b, g) ∈ (linkGo o 0 bids st).book_genres ↔
      g ∈ o jb := by
    intro g
    rw [hmem (b, g)]
    constructor
    · rintro ⟨j, hj, h1, h2⟩
      have hfin : (⟨j, hj⟩ : Fin bids.length) = ⟨jb, hjb⟩ :=
        (List.Nodup.get_inj_iff hnd).mp (by rw [hbeq, ← h1])
      have hjj : j = jb := congrArg Fin.val hfin
      rw [← hjj]
      exact h2
    · intro h2
      exact ⟨jb, hjb, hbeq.symm, h2⟩
  have hnd2 : (linkGo o 0 bids st).book_genres.Nodup := by
    refine nodup_linkGo o bids 0 st ?_
    rw [hbg]
    exact List.nodup_nil
  have hassoc : ∀ g : Nat,
      (g ∈ ((linkGo o 0 bids st).book_genres.filter
        (fun p => p.1 = b)).map Prod.snd ↔ g ∈ o jb) := by
    intro g
    simp only [List.mem_map, List.mem_filter]
    constructor
    · rintro ⟨p, ⟨hpmem, hpb⟩, hpg⟩
      have hpb2 : p.1 = b := by simpa using hpb
      have hpeq : p = (b, g) := by rw [← hpb2, ← hpg]
      rw [hpeq] at hpmem
      exact (hmemb g).mp hpmem
    · intro h
      exact ⟨(b, g), ⟨(hmemb g).mpr h, by simp⟩, rfl⟩
  have hndassoc : (((linkGo o 0 bids st).book_genres.filter
      (fun p => p.1 = b)).map Prod.snd).Nodup := by
    refine List.Nodup.map_on ?_ (hnd2.filter _)
    intro x hx y hy hxy
    have hx2 : x.1 = b := by simpa using (List.mem_filter.mp hx).2
    have hy2 : y.1 = b := by simpa using (List.mem_filter.mp hy).2
    have : x = (b, x.2) := by rw [← hx2]
    rw [this, hxy, ← hy2]
  have hofin : (((linkGo o 0 bids st).book_genres.filter
      (fun p => p.1 = b)).map Prod.snd).toFinset = (o jb).toFinset := by
    ext g
    simp only [List.mem_toFinset]
    exact hassoc g
  have hcard : (((linkGo o 0 bids st).book_genres.filter
      (fun p => p.1 = b)).map Prod.snd).length = (o jb).toFinset.card := by
    rw [← hofin]
    exact (List.toFinset_card_of_nodup hndassoc).symm
  obtain ⟨hsub, hlow, hhigh⟩ := ho jb hjb
  refine ⟨hndassoc, ?_, ?_, ?_⟩
  · rcases List.exists_mem_of_length_pos (Nat.lt_of_lt_of_le Nat.zero_lt_one hlow)
      with ⟨g, hgo⟩
    have := (hassoc g).mpr hgo
    exact List.length_pos_of_mem this
  · rw [hcard]
    exact Nat.le_trans (List.toFinset_card_le (o jb)) hhigh
  · intro g hgmem
    exact hsub.subset ((hassoc g).mp hgmem)

/-- Claim C4 witness. -/
theorem C4_witness :
    ∃ st2, link_books_to_genres [7, 8] [1, 2] (fun _ => [2])
        (create_tables freshDB) = Except.ok st2 ∧
      ((st2.book_genres.filter (fun p => p.1 = 7)).map Prod.snd).Nodup ∧
      1 ≤ ((st2.book_genres.filter (fun p => p.1 = 7)).map Prod.snd).length ∧
      ((st2.book_genres.filter (fun p => p.1 = 7)).map Prod.snd).length ≤
        min 3 ([1, 2] : List Nat).length ∧
      ∀ g ∈ (st2.book_genres.filter (fun p => p.1 = 7)).map Prod.snd,
        g ∈ ([1, 2] : List Nat) :=
  C4_link_bounds (create_tables freshDB) (by decide) (by decide) [7, 8] [1, 2]
    (fun _ => [2]) (by decide) (by decide)
    (by
      intro i hi
      refine ⟨?_, ?_, ?_⟩
      · show List.Subperm [2] [1, 2]
        exact (List.sublist_append_right [1] [2]).subperm
      · show 1 ≤ ([2] : List Nat).length
        decide
      · show ([2] : List Nat).length ≤ min 3 ([1, 2] : List Nat).length
        decide)
    7 (by decide)

end LibraryDB
